import Mathlib

/-!
Verification of the PyAppEnv typed-value pipeline, masking proxy, config-cell
collection and sealed-class guard, as a shallow embedding of
`pyapp_env/classes.py`, `pyapp_env/secure_value.py` and `pyapp_env/global_vars.py`.

Python values are embedded as the inductive `PyVal`; Python `float` is embedded
exactly as an IEEE-754 binary64 value `m * 2^e` with a 53-bit significand
(plus infinities and NaN), so that the implementation's `int(x) != float(x)`
round-trip check is settled by exact integer arithmetic.  Fallible Python code
is embedded in `Except PyErr`.  External collaborators that are not part of the
repository (the `tld` package's known-TLD lookup and the stdlib `json.loads`)
are passed in as explicit function parameters.
-/

/-- Embedded Python exceptions.  Each carries the message the source builds. -/
inductive PyErr where
  | valueError (msg : String)
  | typeError (msg : String)
  | attributeError (msg : String)
  | overflowError (msg : String)
  | keyError (msg : String)
  | immutableError (msg : String)
  deriving DecidableEq, Repr

/-- IEEE-754 binary64 value, embedded exactly: `finite m e` denotes `m * 2^e`
with `m` kept in canonical form (odd or zero, zero paired with exponent 0), so
that structural equality coincides with value equality. -/
inductive PyFloat where
  | finite (m : Int) (e : Int)
  | inf (neg : Bool)
  | nan
  deriving DecidableEq, Repr

/-- Strip trailing zero bits from a significand, keeping the value `m * 2^e`
fixed; `fuel` bounds the recursion (64 is enough for any 53-bit significand). -/
def stripEvens : Nat → Nat → Int → Nat × Int
  | 0, m, e => (m, e)
  | fuel + 1, m, e =>
    if m % 2 == 0 && m != 0 then stripEvens fuel (m / 2) (e + 1) else (m, e)

/-- Canonical finite double from an integer significand and binary exponent. -/
def mkFinite (m : Int) (e : Int) : PyFloat :=
  if m == 0 then .finite 0 0
  else
    let p := stripEvens 64 m.natAbs e
    .finite (if m < 0 then -(p.1 : Int) else (p.1 : Int)) p.2

/-- Does the binade `e` satisfy `2^52 ≤ num/(den * 2^e) < 2^53`? -/
def fitsExp (num den : Nat) (e : Int) : Bool :=
  if 0 ≤ e then
    decide (2 ^ 52 * den * 2 ^ e.toNat ≤ num ∧ num < 2 ^ 53 * den * 2 ^ e.toNat)
  else
    decide (2 ^ 52 * den ≤ num * 2 ^ (-e).toNat ∧ num * 2 ^ (-e).toNat < 2 ^ 53 * den)

/-- Fuelled floor-log2 (structurally recursive so that the kernel can reduce
it; 8192 units of fuel cover every magnitude the embedding meets). -/
def log2Fuel : Nat → Nat → Nat
  | 0, _ => 0
  | fuel + 1, n => if 2 ≤ n then log2Fuel fuel (n / 2) + 1 else 0

/-- Find the binade of the positive rational `num/den` (exponent `e` with
`2^52 ≤ num/(den*2^e) < 2^53`), by a log2 estimate corrected over ±2 steps. -/
def pickExp (num den : Nat) : Int :=
  let e0 : Int := (log2Fuel 8192 num : Int) - (log2Fuel 8192 den : Int) - 52
  (((List.range 5).map (fun i => e0 - 2 + (i : Int))).find? (fitsExp num den)).getD e0

/-- Round `num/den / 2^e` to the nearest integer, ties to even. -/
def roundAt (num den : Nat) (e : Int) : Nat :=
  let A := num * 2 ^ (max 0 (-e)).toNat
  let B := den * 2 ^ (max 0 e).toNat
  let q := A / B
  let r := A % B
  if 2 * r < B then q else if B < 2 * r then q + 1
  else if q % 2 == 0 then q else q + 1

/-- Round the positive rational `num/den` to the nearest binary64, ties to
even.  Results at or beyond `2^1024` overflow to infinity; exponents are
clamped at the subnormal limit `-1074`. -/
def roundPosRatToDouble (num den : Nat) : PyFloat :=
  if num == 0 then .finite 0 0
  else
    let e := max (pickExp num den) (-1074)
    let m := roundAt num den e
    let m := if m == 2 ^ 53 then 2 ^ 52 else m
    let e := if roundAt num den e == 2 ^ 53 then e + 1 else e
    if 0 ≤ e && 2 ^ 1024 ≤ m * 2 ^ e.toNat then .inf false
    else mkFinite (m : Int) e

/-- Correctly rounded conversion of an exact decimal `sign * digits * 10^k`
to binary64, as performed by Python's `float()` on a decimal literal. -/
def roundDecToDouble (neg : Bool) (digits : Nat) (k : Int) : PyFloat :=
  let f :=
    if 0 ≤ k then roundPosRatToDouble (digits * 10 ^ k.toNat) 1
    else roundPosRatToDouble digits (10 ^ (-k).toNat)
  match f with
  | .finite m e => if neg then mkFinite (-m) e else .finite m e
  | .inf _ => .inf neg
  | .nan => .nan

/-- Value of Python `float(t)` when `t` is the decimal literal of the integer
`n` (correctly rounded; magnitudes at or beyond `2^1024` give infinity). -/
def roundIntToDouble (n : Int) : PyFloat :=
  if n.natAbs ≤ 2 ^ 53 then mkFinite n 0
  else roundDecToDouble (decide (n < 0)) n.natAbs 0

/-- Exact Python comparison `k == f` between an `int` and a `float`:
true iff the double is finite and denotes exactly the integer `k`. -/
def pyIntEqFloat (k : Int) (f : PyFloat) : Bool :=
  match f with
  | .finite m e => if 0 ≤ e then k == m * (2 ^ e.toNat : Nat) else false
  | .inf _ => false
  | .nan => false

/-- Python `int(f)` on a float: truncation toward zero; infinities and NaN
raise, which is signalled by `none`. -/
def pyTruncFloat : PyFloat → Option Int
  | .finite m e =>
    if 0 ≤ e then some (m * (2 ^ e.toNat : Nat))
    else
      let a := m.natAbs / 2 ^ (-e).toNat
      some (if m < 0 then -(a : Int) else (a : Int))
  | .inf _ => none
  | .nan => none

/-- Python `float(n)` on an `int`: correctly rounded, but unlike a string
parse an overflowing magnitude raises `OverflowError`. -/
def pyFloatOfInt (n : Int) : Except PyErr PyFloat :=
  match roundIntToDouble n with
  | .inf _ => .error (.overflowError "int too large to convert to float")
  | f => .ok f

/-- The whitespace set stripped by Python's numeric literal parsing. -/
def isPySpace (c : Char) : Bool :=
  c == ' ' || c == '\t' || c == '\n' || c == '\r' || c == '\x0b' || c == '\x0c'

/-- Strip surrounding whitespace (structural replacement for `String.trim`). -/
def trimChars (cs : List Char) : List Char :=
  ((cs.dropWhile isPySpace).reverse.dropWhile isPySpace).reverse

/-- ASCII lowercasing of a character list (structural replacement for
`String.toLower`). -/
def lowerChars (cs : List Char) : List Char := cs.map Char.toLower

/-- Digit-run parser used by the embedded `int()` / `float()` literal grammar:
consumes leading decimal digits, returning their value, count and the rest. -/
def takeDigits : List Char → Nat → Nat → Nat × Nat × List Char
  | [], acc, cnt => (acc, cnt, [])
  | c :: cs, acc, cnt =>
    if c.isDigit then takeDigits cs (acc * 10 + (c.toNat - 48)) (cnt + 1)
    else (acc, cnt, c :: cs)

/-- Python `int(t)` on a string: optional surrounding whitespace, optional
sign, a nonempty digit run (PEP-515 underscore separators are not modelled).
`none` models the `ValueError` raised on any other string. -/
def pyIntOfString (t : String) : Option Int :=
  let cs := trimChars t.toList
  let (neg, cs) :=
    match cs with
    | '+' :: rest => (false, rest)
    | '-' :: rest => (true, rest)
    | rest => (false, rest)
  match takeDigits cs 0 0 with
  | (v, cnt, []) => if cnt == 0 then none else some (if neg then -(v : Int) else (v : Int))
  | _ => none

/-- Python `float(t)` on a string: optional surrounding whitespace, optional
sign, then `inf`/`infinity`/`nan` (case-insensitive) or a decimal literal
`digits [. digits] [e|E [sign] digits]` with at least one mantissa digit
(underscore separators are not modelled).  `none` models the `ValueError`. -/
def pyFloatOfString (t : String) : Option PyFloat :=
  let cs := trimChars t.toList
  let (neg, cs) :=
    match cs with
    | '+' :: rest => (false, rest)
    | '-' :: rest => (true, rest)
    | rest => (false, rest)
  let low := String.mk (lowerChars cs)
  if low == "inf" || low == "infinity" then some (.inf neg)
  else if low == "nan" then some .nan
  else
    let (ip, ipCnt, cs) := takeDigits cs 0 0
    let (digits, fracCnt, cs) :=
      match cs with
      | '.' :: rest =>
        let (fp, fpCnt, rest) := takeDigits rest 0 0
        (ip * 10 ^ fpCnt + fp, fpCnt, rest)
      | rest => (ip, 0, rest)
    if ipCnt + fracCnt == 0 then none
    else
      match cs with
      | [] => some (roundDecToDouble neg digits (-(fracCnt : Int)))
      | e :: rest =>
        if e == 'e' || e == 'E' then
          let (eneg, rest) :=
            match rest with
            | '+' :: r2 => (false, r2)
            | '-' :: r2 => (true, r2)
            | r2 => (false, r2)
          match takeDigits rest 0 0 with
          | (ev, ecnt, []) =>
            if ecnt == 0 then none
            else
              let ex : Int := if eneg then -(ev : Int) else (ev : Int)
              some (roundDecToDouble neg digits (ex - (fracCnt : Int)))
          | _ => none
        else none

/-- Embedded Python values, covering the types the pipeline manipulates.
`secureMut orig` is the mutable-form masking proxy (the dynamically created
forwarding `SecureValue` class of `secure_value.py`); `secureImm content orig`
is the immutable-form proxy, whose `content` is the value the base type's
`__new__` stored in the subclass instance. -/
inductive PyVal where
  | none
  | bool (b : Bool)
  | int (n : Int)
  | float (f : PyFloat)
  | str (s : String)
  | list (xs : List PyVal)
  | dict (xs : List (PyVal × PyVal))
  | secureMut (orig : PyVal)
  | secureImm (content : PyVal) (orig : PyVal)
  | notImplemented

/-- Equality of embedded floats under Python semantics: NaN compares unequal
to everything, finite doubles are canonical so structural equality is exact. -/
def floatEqb : PyFloat → PyFloat → Bool
  | .nan, _ => false
  | _, .nan => false
  | f, g => f == g

/-- Truthiness of an embedded float. -/
def floatTruthy : PyFloat → Bool
  | .finite m _ => m != 0
  | _ => true

mutual

/-- Result of `a.__eq__(b)` for plain (non-proxy) values: `some r` when the
base types define the comparison, `none` for the `NotImplemented` sentinel
returned on a cross-type comparison.  Numeric types (`int`, `bool`, `float`)
compare exactly across each other, as in Python.  Dictionary equality is
modelled on the underlying association lists in order (the claims never
compare dictionaries); proxies compare as cross-type here (the full protocol
is in `pyEq`). -/
def pyEqPlain : PyVal → PyVal → Option Bool
  | .none, .none => some true
  | .bool a, .bool b => some (a == b)
  | .bool a, .int b => some ((if a then (1 : Int) else 0) == b)
  | .int a, .bool b => some (a == (if b then (1 : Int) else 0))
  | .int a, .int b => some (a == b)
  | .int a, .float f => some (pyIntEqFloat a f)
  | .float f, .int a => some (pyIntEqFloat a f)
  | .bool a, .float f => some (pyIntEqFloat (if a then 1 else 0) f)
  | .float f, .bool a => some (pyIntEqFloat (if a then 1 else 0) f)
  | .float f, .float g => some (floatEqb f g)
  | .str a, .str b => some (a == b)
  | .list xs, .list ys => some (pyEqListAux xs ys)
  | .dict xs, .dict ys => some (pyEqPairsAux xs ys)
  | _, _ => Option.none

/-- Elementwise Python equality of lists; an element-level `NotImplemented`
falls back to identity and compares unequal. -/
def pyEqListAux : List PyVal → List PyVal → Bool
  | [], [] => true
  | x :: xs, y :: ys => (pyEqPlain x y).getD false && pyEqListAux xs ys
  | _, _ => false

/-- Pairwise equality of association lists backing embedded dictionaries. -/
def pyEqPairsAux : List (PyVal × PyVal) → List (PyVal × PyVal) → Bool
  | [], [] => true
  | (k, v) :: xs, (k2, v2) :: ys =>
    (pyEqPlain k k2).getD false && (pyEqPlain v v2).getD false && pyEqPairsAux xs ys
  | _, _ => false

end

/-- The full Python `a == b` protocol as far as the pipeline exercises it.
A mutable proxy dispatches through its forwarding `__eq__` wrapper
(`secure_value.py` `method_wrapper`): a defined base comparison is re-wrapped
into a new proxy, the `NotImplemented` sentinel becomes a plain `False`.
An immutable proxy has no `__eq__` override, so its base type compares the
stored content.  Plain values try the reflected comparison on sentinel. -/
def pyEq (a b : PyVal) : PyVal :=
  match a with
  | .secureMut o =>
    match pyEqPlain o b with
    | some r => .secureMut (.bool r)
    | Option.none => .bool false
  | .secureImm c _ => .bool ((pyEqPlain c b).getD false)
  | _ =>
    match pyEqPlain a b with
    | some r => .bool r
    | Option.none =>
      match pyEqPlain b a with
      | some r => .bool r
      | Option.none => .bool false

/-- Truthiness (`bool(v)`), which can raise for a mutable proxy: the wrapper
around an `int`/`float` original forwards `__bool__` and re-wraps its result,
which the interpreter slot rejects with a `TypeError`.  A wrapper around a
`bool` original is an `int` subclass instance created by an argument-free
`__new__`, so its underlying int value is `0` and it is falsy whatever the
original; `bool`'s own `__bool__` is on the member denylist (it is named after
the original's type).  `str`/`list`/`dict` wrappers have no `__bool__` and
fall back to `__len__`, which is in the default ignore list and returns the
original's length unwrapped. -/
def pyTruthy : PyVal → Except PyErr Bool
  | .none => .ok false
  | .bool b => .ok b
  | .int n => .ok (n != 0)
  | .float f => .ok (floatTruthy f)
  | .str s => .ok (s != "")
  | .list xs => .ok (!xs.isEmpty)
  | .dict xs => .ok (!xs.isEmpty)
  | .notImplemented => .ok true
  | .secureMut o =>
    match o with
    | .bool _ => .ok false
    | .int _ => .error (.typeError "__bool__ should return bool, returned SecureValue")
    | .float _ => .error (.typeError "__bool__ should return bool, returned SecureValue")
    | .str s => .ok (s != "")
    | .list xs => .ok (!xs.isEmpty)
    | .dict xs => .ok (!xs.isEmpty)
    | _ => .ok true
  | .secureImm c _ => pyTruthy c

/-- String conversion `str(v)`.  Both proxy forms override `__str__` with the
fixed redaction marker.  The shortest-round-trip rendering of floats and the
recursive rendering of containers are not modelled (`none`); no theorem
depends on them. -/
def pyStr : PyVal → Option String
  | .secureMut _ => some "******"
  | .secureImm _ _ => some "******"
  | .str s => some s
  | .int n => some (toString n)
  | .bool b => some (if b then "True" else "False")
  | .none => some "None"
  | .notImplemented => some "NotImplemented"
  | _ => Option.none

/-- Representation `repr(v)`.  Both proxy forms override `__repr__` with the
fixed redaction marker; the representation of plain values is not needed by
any theorem and is not modelled. -/
def pyRepr : PyVal → Option String
  | .secureMut _ => some "******"
  | .secureImm _ _ => some "******"
  | _ => Option.none

/-- Rendering of a value inside an f-string error message (Python `str`).
Total, so that every embedded message is a concrete string; the placeholder
branches are never relied on by any theorem. -/
def pyMsgStr : PyVal → String
  | .str s => s
  | .int n => toString n
  | .bool b => if b then "True" else "False"
  | .none => "None"
  | .notImplemented => "NotImplemented"
  | .secureMut _ => "******"
  | .secureImm _ _ => "******"
  | .float _ => "<float>"
  | .list _ => "<list>"
  | .dict _ => "<dict>"

/-- Python type name, as interpolated into `int()`/`float()` error messages. -/
def pyTypeName : PyVal → String
  | .none => "NoneType"
  | .bool _ => "bool"
  | .int _ => "int"
  | .float _ => "float"
  | .str _ => "str"
  | .list _ => "list"
  | .dict _ => "dict"
  | .secureMut _ => "SecureValue"
  | .secureImm _ _ => "SecureValue"
  | .notImplemented => "NotImplementedType"

/-- The explicit reveal accessor: the `unmasked` property returns the stored
`_original_data`; a plain value has no such attribute (`none`). -/
def unmasked : PyVal → Option PyVal
  | .secureMut o => some o
  | .secureImm _ o => some o
  | _ => Option.none

/-- Is the value one of the two proxy forms? -/
def isSecure : PyVal → Bool
  | .secureMut _ => true
  | .secureImm _ _ => true
  | _ => false

/-- Comparison members whose `NotImplemented` result raises (`secure_value.py`,
spelling kept from the source). -/
def compariosn_methods_with_type_error : List String := ["__lt__", "__le__", "__gt__", "__ge__"]

/-- Comparison members whose `NotImplemented` result becomes `False`. -/
def compariosn_methods_with_return : List String := ["__eq__", "__ne__"]

/-- Member-name to symbolic-operator table (`secure_value.py`). -/
def comparion_method_symbol : List (String × String) :=
  [("__eq__", "=="), ("__ne__", "!="), ("__lt__", "<"), ("__le__", "<="),
   ("__gt__", ">"), ("__ge__", ">=")]

/-- Lookup in `comparion_method_symbol`. -/
def comparisonSymbol (name : String) : Option String :=
  (comparion_method_symbol.find? (fun p => p.1 == name)).map (fun p => p.2)

/-- Is the value the `None` singleton? -/
def isNoneV : PyVal → Bool
  | .none => true
  | _ => false

/-- Is the value the `NotImplemented` sentinel? -/
def isNotImplementedV : PyVal → Bool
  | .notImplemented => true
  | _ => false

/-- Content stored in an immutable-form proxy by `SecureValue(value)`: the
base type's `__new__` rebuilds the value from its argument.  A `bool` original
uses `int` as base class (the source swaps the base before the inheritability
probe), so its content is the corresponding `int`.  `list.__new__`/`dict
.__new__` ignore their argument and the custom `__init__` never fills the
container, so container proxies carry empty content.  Wrapping an existing
proxy re-reads it through the base constructor: a `str` base applies the
redacting `__str__`, numeric bases read the instance value back (`0` for a
mutable proxy, whose instance was created by an argument-free `__new__`). -/
def immContent : PyVal → PyVal
  | .str s => .str s
  | .int n => .int n
  | .float f => .float f
  | .bool b => .int (if b then 1 else 0)
  | .list _ => .list []
  | .dict _ => .dict []
  | .secureMut o =>
    (match o with
     | .str _ => .str "******"
     | .bool _ => .int 0
     | .int _ => .int 0
     | .float _ => .float (.finite 0 0)
     | .list _ => .list []
     | .dict _ => .dict []
     | _ => .secureMut o)
  | .secureImm c _ =>
    (match c with
     | .str _ => .str "******"
     | _ => c)
  | v => v

/-- The masking-proxy constructor `CreateSecureValue(value, is_mutable,
ignored_class, ignored_method)` of `secure_value.py`, with the `isinstance`
test against the ignored carrier class abstracted as the predicate
`ignoredOfClass` (the pipeline always passes `ConfigValue`, matched by no
embedded value).  `None` and values of non-subclassable type
(`NotImplemented`) are returned unchanged.  Wrapping a value that is already
a proxy in mutable mode re-enters the construction with a non-immutable base
class and the attribute-copy loop fails with `AttributeError`
(`secure_value.py` lines 177-186).  For a mutable-form proxy every member —
`__setattr__` included — is a wrapper function literally named `wrapped`, so
the copied class sets attributes by forwarding
`getattr(self._original_data, "wrapped")`, and the loop dies at its very
first key (`__dict__`) with
`AttributeError: \x27SecureValue\x27 object has no attribute \x27wrapped\x27`.
For an immutable-form proxy the members keep their real names, forwarded
assignment lands on the old proxy, and the loop instead reaches the
class-level read-only `unmasked` property, whose missing setter raises the
`AttributeError`.  In immutable mode a fresh double-wrapped proxy is
produced. -/
def CreateSecureValue (v : PyVal) (is_mutable : Bool) (ignoredOfClass : PyVal → Bool) :
    Except PyErr PyVal :=
  if ignoredOfClass v then .ok v
  else
    match v with
    | .none => .ok .none
    | .notImplemented => .ok .notImplemented
    | .secureMut o =>
      if is_mutable then .error (.attributeError "\x27SecureValue\x27 object has no attribute \x27wrapped\x27")
      else .ok (.secureImm (immContent (.secureMut o)) (.secureMut o))
    | .secureImm c o =>
      if is_mutable then .error (.attributeError "property \x27unmasked\x27 of \x27SecureValue\x27 object has no setter")
      else .ok (.secureImm (immContent (.secureImm c o)) (.secureImm c o))
    | w =>
      .ok (if is_mutable then .secureMut w else .secureImm (immContent w) w)

/-- Post-processing a forwarded member call (`method_wrapper` in
`secure_value.py`): given the raw `result` of re-executing the member on the
original value, return it unchanged when it is `None`, an instance of the
ignored carrier class, or the member is in the ignore list; raise a `TypeError`
naming both operand types and the symbolic operator when an ordering
comparison returned the `NotImplemented` sentinel; return plain `False` when
an equality comparison did; otherwise re-wrap the result. -/
def method_wrapper (selfClass argClass : String) (methodName : String)
    (ignoredOfClass : PyVal → Bool) (ignoredMethods : List String) (result : PyVal) :
    Except PyErr PyVal :=
  if isNoneV result || ignoredOfClass result || ignoredMethods.contains methodName then
    .ok result
  else if isNotImplementedV result && compariosn_methods_with_type_error.contains methodName then
    .error (.typeError ("\x27" ++ (comparisonSymbol methodName).getD "" ++
      "\x27 not supported between instances of \x27" ++ selfClass ++
      "\x27 and \x27" ++ argClass ++ "\x27"))
  else if isNotImplementedV result && compariosn_methods_with_return.contains methodName then
    .ok (.bool false)
  else
    CreateSecureValue result true ignoredOfClass

/-- The two process-wide switches of the Global Masking Policy
(`global_vars.py`): `reveal` is `show_secured_values`, `mutForm` is
`make_secured_values_mutable`. -/
structure Policy where
  reveal : Bool
  mutForm : Bool

/-- `StandardDataType.convert_to_secure_value`: wrap the value iff the
descriptor is secret-flagged and the reveal switch is off.  The ignored
carrier class is `ConfigValue`; no embedded value is a `ConfigValue`
instance. -/
def convert_to_secure_value (mask : Bool) (pol : Policy) (v : PyVal) : Except PyErr PyVal :=
  if mask && !pol.reveal then CreateSecureValue v pol.mutForm (fun _ => false)
  else .ok v

/-- Does the string contain an ASCII uppercase letter (`re.search(r"[A-Z]")`)? -/
def hasUpperChar (s : String) : Bool := s.toList.any (fun c => 'A' ≤ c && c ≤ 'Z')

/-- Does the string contain an ASCII lowercase letter (`re.search(r"[a-z]")`)? -/
def hasLowerChar (s : String) : Bool := s.toList.any (fun c => 'a' ≤ c && c ≤ 'z')

/-- Does the string contain a digit (`re.search(r"\d")`)?  Modelled over the
ASCII digits; Python's Unicode digit classes are outside the model. -/
def hasDigitChar (s : String) : Bool := s.toList.any Char.isDigit

/-- Does the string contain a character of the special set
(`re.search(f"[{special_chars_list}]")`)?  The character class is modelled as
set membership, which matches the default set (no regex metacharacter such as
a range dash is present in it). -/
def hasSpecialChar (special : List Char) (s : String) : Bool :=
  s.toList.any (fun c => special.contains c)

/-- Does the second list occur as a prefix of the first? -/
def listStartsWith : List Char → List Char → Bool
  | _, [] => true
  | [], _ :: _ => false
  | x :: xs, y :: ys => x == y && listStartsWith xs ys

/-- Does the second list occur as a contiguous sublist of the first? -/
def listHasSub : List Char → List Char → Bool
  | [], pat => pat.isEmpty
  | x :: xs, pat => listStartsWith (x :: xs) pat || listHasSub xs pat

/-- Substring test on strings. -/
def strContainsSub (hay pat : String) : Bool := listHasSub hay.toList pat.toList

/-- The fixed deny-list of the common-pattern regex alternation
(`classes.py` line 493). -/
def common_password_patterns : List String :=
  ["1234", "abcd", "qwerty", "password", "abc@123", "password@123", "12345678"]

/-- Case-insensitive search for any deny-listed pattern
(`re.search(..., re.IGNORECASE)`), modelled by ASCII lowercasing. -/
def hasCommonPattern (s : String) : Bool :=
  common_password_patterns.any (fun p => listHasSub (lowerChars s.toList) p.toList)

/-- Configuration stored by `StrongPasswordDataType.__init__`: length bounds,
the four class-requirement toggles, and the special-character set
(`none` as `max_length` is the `float("inf")` default). -/
structure SPParams where
  min_length : Nat
  max_length : Option Nat
  special_chars : Bool
  numbers : Bool
  uppercase : Bool
  lowercase : Bool
  special_chars_list : List Char

/-- The default special-character set `!@#$%^&*()_+`. -/
def SP_DEFAULT_SPECIAL_CHARS : List Char := "!@#$%^&*()_+".toList

/-- `StrongPasswordDataType.__init__`: record the configuration.  Python's
`max_length or inf` / `special_chars_list or default` treat `0` and the empty
list as absent, which the `Option`/emptiness tests reproduce.  The
`__validate_special_chars` type check cannot fail here because the set is
already a character list. -/
def StrongPasswordDataType_init (min_length : Nat) (max_length : Option Nat)
    (special_chars numbers uppercase lowercase : Bool)
    (special_chars_list : Option (List Char)) : SPParams :=
  ⟨min_length,
   (match max_length with
    | some m => if m == 0 then Option.none else some m
    | Option.none => Option.none),
   special_chars, numbers, uppercase, lowercase,
   (match special_chars_list with
    | some l => if l.isEmpty then SP_DEFAULT_SPECIAL_CHARS else l
    | Option.none => SP_DEFAULT_SPECIAL_CHARS)⟩

/-- Python `len()` as the pipeline needs it.  A mutable proxy forwards
`__len__` to the original (the member is in the default ignore list, so the
length comes back unwrapped); an immutable proxy is an instance of its base
type and measures its stored content. -/
def pyLen : PyVal → Except PyErr Nat
  | .str s => .ok s.length
  | .list xs => .ok xs.length
  | .dict xs => .ok xs.length
  | .secureMut o => pyLen o
  | .secureImm c _ => pyLen c
  | v => .error (.typeError ("object of type \x27" ++ pyTypeName v ++ "\x27 has no len()"))

/-- The unwrap the password validator performs: when the value's class name is
`SecureValue` (either proxy form), read `_original_data`, else the value. -/
def proxyOriginal : PyVal → PyVal
  | .secureMut o => o
  | .secureImm _ o => o
  | w => w

/-- `StrongPasswordDataType._value_validator` (`classes.py` 460-497): unwrap a
proxy to its `_original_data`, then check, in source order, minimum length,
maximum length, uppercase, lowercase, digit, special character, and the
common-pattern deny-list.  Note that the configured toggles are not consulted
by the source: every class check runs unconditionally.  A non-string password
value reaches `re.search` and raises its `TypeError`. -/
def sp_value_validator (p : SPParams) (v : PyVal) : Except PyErr Unit := do
  let pv := proxyOriginal v
  let n ← pyLen pv
  if n < p.min_length then
    .error (.valueError ("Password must be at least " ++ toString p.min_length ++ " characters long."))
  else if (match p.max_length with | some m => decide (m < n) | Option.none => false) then
    .error (.valueError ("Password must be at most " ++
      (match p.max_length with | some m => toString m | Option.none => "inf") ++ " characters long."))
  else
    match pv with
    | .str s =>
      if !hasUpperChar s then
        .error (.valueError "Password must contain at least one uppercase letter.")
      else if !hasLowerChar s then
        .error (.valueError "Password must contain at least one lowercase letter.")
      else if !hasDigitChar s then
        .error (.valueError "Password must contain at least one digit.")
      else if !hasSpecialChar p.special_chars_list s then
        .error (.valueError "Password must contain at least one special character.")
      else if hasCommonPattern s then
        .error (.valueError "Password should not contain common patterns or sequences.")
      else .ok ()
    | w => .error (.typeError ("expected string or bytes-like object, got \x27" ++ pyTypeName w ++ "\x27"))

/-- The coarse email grammar `re.match(r"[^@]+@[^@]+\.[^@]+", s)`:
an anchored-at-start, prefix-only match.  It succeeds iff the first `@` has at
least one character before it, and the maximal `@`-free run after it contains
a dot that is neither its first nor its last character. -/
def emailGrammarPrefix (s : String) : Bool :=
  let cs := s.toList
  match cs.findIdx? (fun c => c == '@') with
  | Option.none => false
  | some i =>
    if i == 0 then false
    else
      let rest := cs.drop (i + 1)
      let run := rest.takeWhile (fun c => c != '@')
      ((run.drop 1).dropLast).contains '.'

/-- Charset check of `EmailDataType.is_valid_domain_name`
(`re.match(r"^[a-zA-Z0-9.-]+$", domain)`). -/
def domain_charset_ok (d : String) : Bool :=
  !d.isEmpty && d.toList.all (fun c =>
    ('a' ≤ c && c ≤ 'z') || ('A' ≤ c && c ≤ 'Z') || c.isDigit || c == '.' || c == '-')

/-- `EmailDataType.is_valid_domain_name`: reject on a bad charset, then rebuild
`http://domain` and consult the known-TLD lookup.  The URL regex always
matches once the charset check passed, so only the external `tld.get_tld`
lookup remains; it is the abstract parameter `tldOk` (true iff the lookup
succeeds). -/
def is_valid_domain_name (tldOk : String → Bool) (domain : String) : Bool :=
  if !domain_charset_ok domain then false else tldOk domain

/-- Split a character list on a separator character, with the semantics of
Python's `str.split(sep)` for a one-character separator. -/
def splitOnChar (sep : Char) : List Char → List (List Char)
  | [] => [[]]
  | c :: rest =>
    let r := splitOnChar sep rest
    if c == sep then [] :: r
    else
      match r with
      | h :: t => (c :: h) :: t
      | [] => [[c]]

/-- `EmailDataType._value_validator` (`classes.py` 504-513): fail unless the
(prefix-only) grammar matches; then split on `@` and validate the domain only
when the split has exactly two parts.  A non-string value cannot reach this
stage (the type check runs first). -/
def email_value_validator (tldOk : String → Bool) (v : PyVal) : Except PyErr Unit :=
  match v with
  | .str s =>
    if !emailGrammarPrefix s then
      .error (.valueError ("Value \x27" ++ s ++ "\x27 is not a valid email address."))
    else
      let parts := splitOnChar '@' s.toList
      if parts.length == 2 then
        if !is_valid_domain_name tldOk (String.mk (parts.getD 1 [])) then
          .error (.valueError ("Value \x27" ++ s ++ "\x27 is not a valid email address."))
        else .ok ()
      else .ok ()
  | w => .error (.typeError ("expected string or bytes-like object, got \x27" ++ pyTypeName w ++ "\x27"))

/-- The closed set of Type Descriptor variants (`classes.py`), each with its
structural options fixed at construction.  `convert` is the per-descriptor
`convert=True` flag (a `False` replaces `convert_type` by a no-op);
`support_boolean` / `support_inf` mirror the numeric options. -/
inductive Desc where
  | string
  | integer (convert support_boolean : Bool)
  | positiveInteger (convert : Bool)
  | negativeInteger (convert : Bool)
  | float (convert support_inf support_boolean : Bool)
  | boolean (convert : Bool)
  | list (convert : Bool)
  | dict (convert : Bool)
  | any
  | secret
  | strongPassword (p : SPParams)
  | email

/-- The `mask_value` class attribute: set only by `SecretDataType` (and so by
its subclass `StrongPasswordDataType`). -/
def descMask : Desc → Bool
  | .secret => true
  | .strongPassword _ => true
  | _ => false

/-- `BaseDataType.precheck_empty_value` (`classes.py` 49-51): raise unless the
`value` attribute exists (`none` models a descriptor with no value assigned)
and its comparison with the sentinel string `"NOT_SET"` is falsy.  The
comparison and its truthiness go through the full proxy-aware protocol. -/
def precheck_empty_value (value : Option PyVal) : Except PyErr Unit :=
  match value with
  | Option.none => .error (.valueError "Value not set.")
  | some v => do
    let b ← pyTruthy (pyEq v (.str "NOT_SET"))
    if b then .error (.valueError "Value not set.") else .ok ()

/-- `IntegerDataType.convert_type` (`classes.py` 279-293): already-integral
input passes through (a `bool` only when `support_boolean`); otherwise
`int(value)` and `float(value)` are computed and the value is accepted only if
they agree exactly and the input's type is `str` or `float`.  Errors keep the
kind and message of the exception the source re-raises. -/
def integer_convert_type (sb : Bool) (v : PyVal) : Except PyErr PyVal :=
  match v with
  | .int n => .ok (.int n)
  | .bool b =>
    if sb then .ok (.int (if b then 1 else 0))
    else .error (.valueError ("Value " ++ pyMsgStr v ++ " must be an integer not of type float or boolean."))
  | .str s =>
    (match pyIntOfString s with
     | some n =>
       if pyIntEqFloat n (roundIntToDouble n) then .ok (.int n)
       else .error (.valueError ("Value " ++ s ++ " must be an integer not of type float or boolean."))
     | Option.none =>
       .error (.valueError ("invalid literal for int() with base 10: \x27" ++ s ++ "\x27")))
  | .float (.inf _) => .error (.overflowError "cannot convert float infinity to integer")
  | .float .nan => .error (.valueError "cannot convert float NaN to integer")
  | .float f =>
    (match pyTruncFloat f with
     | some k =>
       if pyIntEqFloat k f then .ok (.int k)
       else .error (.valueError ("Value " ++ pyMsgStr v ++ " must be an integer not of type float or boolean."))
     | Option.none => .error (.valueError "cannot convert float NaN to integer"))
  | w =>
    .error (.typeError ("int() argument must be a string, a bytes-like object or a real number, not \x27" ++ pyTypeName w ++ "\x27"))

/-- `FloatDataType.convert_type` (`classes.py` 326-342): floats pass through;
a string equal to `inf`/`-inf` after lowering and trimming is rejected unless
`support_inf`; booleans are rejected unless `support_boolean`; everything else
goes through `float(value)`. -/
def float_convert_type (sinf sb : Bool) (v : PyVal) : Except PyErr PyVal :=
  match v with
  | .float f => .ok (.float f)
  | .str s =>
    let t := String.mk (trimChars (lowerChars s.toList))
    if !sinf && (t == "inf" || t == "-inf") then
      .error (.valueError ("Value " ++ s ++ " must be a finite float."))
    else
      (match pyFloatOfString s with
       | some f => .ok (.float f)
       | Option.none =>
         .error (.valueError ("could not convert string to float: \x27" ++ s ++ "\x27")))
  | .bool b =>
    if !sb then .error (.valueError ("Value " ++ pyMsgStr v ++ " must be a float and not a boolean."))
    else .ok (.float (mkFinite (if b then 1 else 0) 0))
  | .int n =>
    (match pyFloatOfInt n with
     | .ok f => .ok (.float f)
     | .error e => .error e)
  | w =>
    .error (.typeError ("float() argument must be a string or a real number, not \x27" ++ pyTypeName w ++ "\x27"))

/-- `BooleanDataType.convert_type` (`classes.py` 352-374): booleans pass
through, the integers 0/1 convert, the trimmed lowercase literal sets
`{true,1,yes,y}` / `{false,0,no,n}` convert, everything else raises. -/
def boolean_convert_type (v : PyVal) : Except PyErr PyVal :=
  let errMsg := "Value " ++ pyMsgStr v ++
    " must be in a string format or boolean. Valid values are: true, 1, yes, y, false, 0, no, n."
  match v with
  | .bool b => .ok (.bool b)
  | .int n =>
    if n == 0 || n == 1 then .ok (.bool (n == 1))
    else .error (.valueError ("Value " ++ pyMsgStr v ++ " as an interger is not supported for boolean conversion."))
  | .str s =>
    let t := String.mk (lowerChars (trimChars s.toList))
    if ["true", "1", "yes", "y"].contains t then .ok (.bool true)
    else if ["false", "0", "no", "n"].contains t then .ok (.bool false)
    else .error (.valueError errMsg)
  | _ => .error (.valueError errMsg)

/-- `ListDataType.convert_type` (`classes.py` 384-392): lists pass through,
strings are parsed by the stdlib `json.loads` (the abstract parameter
`jsonLoads`, `none` modelling `JSONDecodeError`), anything else is left
unchanged for the type check to reject. -/
def list_convert_type (jsonLoads : String → Option PyVal) (v : PyVal) : Except PyErr PyVal :=
  match v with
  | .list xs => .ok (.list xs)
  | .str s =>
    (match jsonLoads s with
     | some w => .ok w
     | Option.none => .error (.valueError ("Value " ++ s ++ " is not a valid list in JSON format.")))
  | w => .ok w

/-- `DictDataType.convert_type` (`classes.py` 401-409): as for lists, with the
dictionary wording. -/
def dict_convert_type (jsonLoads : String → Option PyVal) (v : PyVal) : Except PyErr PyVal :=
  match v with
  | .dict xs => .ok (.dict xs)
  | .str s =>
    (match jsonLoads s with
     | some w => .ok w
     | Option.none => .error (.valueError ("Value " ++ s ++ " is not a valid dictionary in JSON format.")))
  | w => .ok w

/-- Stage 2 dispatch: each variant's `convert_type`, a no-op when the
descriptor was constructed with `convert=False` or has no converter. -/
def desc_convert_type (jsonLoads : String → Option PyVal) (d : Desc) (v : PyVal) :
    Except PyErr PyVal :=
  match d with
  | .string => .ok v
  | .integer cv sb => if cv then integer_convert_type sb v else .ok v
  | .positiveInteger cv => if cv then integer_convert_type false v else .ok v
  | .negativeInteger cv => if cv then integer_convert_type false v else .ok v
  | .float cv sinf sb => if cv then float_convert_type sinf sb v else .ok v
  | .boolean cv => if cv then boolean_convert_type v else .ok v
  | .list cv => if cv then list_convert_type jsonLoads v else .ok v
  | .dict cv => if cv then dict_convert_type jsonLoads v else .ok v
  | .any => .ok v
  | .secret => .ok v
  | .strongPassword _ => .ok v
  | .email => .ok v

/-- Python `isinstance(v, T)` for each descriptor's expected native type.
`bool` is a subclass of `int`; a proxy is an instance of its base class; the
`object` expectation of Any/Secret/StrongPassword accepts everything. -/
def isinstance_of (d : Desc) (v : PyVal) : Bool :=
  match d with
  | .string | .email =>
    (match v with
     | .str _ => true
     | .secureMut (.str _) => true
     | .secureImm (.str _) _ => true
     | _ => false)
  | .integer _ _ | .positiveInteger _ | .negativeInteger _ =>
    (match v with
     | .int _ => true
     | .bool _ => true
     | .secureMut (.int _) => true
     | .secureMut (.bool _) => true
     | .secureImm (.int _) _ => true
     | _ => false)
  | .float _ _ _ =>
    (match v with
     | .float _ => true
     | .secureMut (.float _) => true
     | .secureImm (.float _) _ => true
     | _ => false)
  | .boolean _ =>
    (match v with
     | .bool _ => true
     | _ => false)
  | .list _ =>
    (match v with
     | .list _ => true
     | .secureMut (.list _) => true
     | .secureImm (.list _) _ => true
     | _ => false)
  | .dict _ =>
    (match v with
     | .dict _ => true
     | .secureMut (.dict _) => true
     | .secureImm (.dict _) _ => true
     | _ => false)
  | .any | .secret | .strongPassword _ => true

/-- The `datatype_name` each constructor passes to `StandardDataType`. -/
def desc_datatype_name : Desc → String
  | .string => "string"
  | .integer _ _ | .positiveInteger _ | .negativeInteger _ => "integer"
  | .float _ _ _ => "float"
  | .boolean _ => "boolean"
  | .list _ => "list"
  | .dict _ => "dictionary"
  | .any => "any"
  | .secret => "string"
  | .strongPassword _ => "string"
  | .email => "string"

/-- `StandardDataType.validate_type` (`classes.py` 234-236). -/
def desc_validate_type (d : Desc) (v : PyVal) : Except PyErr Unit :=
  if isinstance_of d v then .ok ()
  else .error (.typeError ("Data must be of type " ++ desc_datatype_name d ++
    " for value " ++ pyMsgStr v ++ "."))

/-- Stage 4 dispatch: the per-variant `_value_validator` (a no-op for the
variants that define none). -/
def desc_value_validator (tldOk : String → Bool) (d : Desc) (v : PyVal) : Except PyErr Unit :=
  match d with
  | .string =>
    (match v with
     | .str _ => .ok ()
     | _ => .error (.valueError ("Value " ++ pyMsgStr v ++ " must be a string.")))
  | .integer _ _ =>
    (match v with
     | .int _ => .ok ()
     | .bool _ => .ok ()
     | _ => .error (.valueError ("Value " ++ pyMsgStr v ++ " must be an integer.")))
  | .positiveInteger _ =>
    (match v with
     | .int n => if n ≤ 0 then .error (.valueError ("Value " ++ pyMsgStr v ++ " must be a positive integer.")) else .ok ()
     | .bool b => if b then .ok () else .error (.valueError ("Value " ++ pyMsgStr v ++ " must be a positive integer."))
     | _ => .error (.typeError ("\x27<=\x27 not supported between instances of \x27" ++ pyTypeName v ++ "\x27 and \x27int\x27")))
  | .negativeInteger _ =>
    (match v with
     | .int n => if 0 ≤ n then .error (.valueError ("Value " ++ pyMsgStr v ++ " must be a negative integer.")) else .ok ()
     | .bool _ => .error (.valueError ("Value " ++ pyMsgStr v ++ " must be a negative integer."))
     | _ => .error (.typeError ("\x27>=\x27 not supported between instances of \x27" ++ pyTypeName v ++ "\x27 and \x27int\x27")))
  | .strongPassword p => sp_value_validator p v
  | .email => email_value_validator tldOk v
  | _ => .ok ()

/-- `StandardDataType.__set_value__` (`classes.py` 251-260): assign the
(possibly proxy-wrapped) value, then run precheck, convert, type check,
semantic check and the optional caller-supplied check; the first failure is
terminal.  The canonical output is the value as it stands after conversion. -/
def set_value (pol : Policy) (jsonLoads : String → Option PyVal) (tldOk : String → Bool)
    (uc : Option (PyVal → Except PyErr Unit)) (d : Desc) (v : PyVal) : Except PyErr PyVal := do
  let v1 ← convert_to_secure_value (descMask d) pol v
  precheck_empty_value (some v1)
  let v2 ← desc_convert_type jsonLoads d v1
  desc_validate_type d v2
  desc_value_validator tldOk d v2
  (match uc with
   | some f => f v2
   | Option.none => pure ())
  pure v2

/-- A stored value of the `EnvConfig` mapping: either a `ConfigValue` cell
(carrying its validator's accepted value) or any other object. -/
inductive EnvEntry where
  | cfg (v : PyVal)
  | plain (v : PyVal)

/-- The unwrapped reading of an entry: a `ConfigValue` yields its `.value`,
anything else is returned as-is. -/
def EnvEntry.unwrap : EnvEntry → PyVal
  | .cfg v => v
  | .plain v => v

/-- Ordered association-list lookup backing the embedded `dict`. -/
def lookupEntry : List (String × EnvEntry) → String → Option EnvEntry
  | [], _ => Option.none
  | (k, e) :: rest, key => if k == key then some e else lookupEntry rest key

/-- Insert-or-update with `dict` semantics: an existing key is updated in
place, a new key is appended. -/
def setEntry : List (String × EnvEntry) → String → EnvEntry → List (String × EnvEntry)
  | [], key, v => [(key, v)]
  | (k, e) :: rest, key, v =>
    if k == key then (key, v) :: rest else (k, e) :: setEntry rest key v

/-- Remove a key. -/
def removeEntry : List (String × EnvEntry) → String → List (String × EnvEntry)
  | [], _ => []
  | (k, e) :: rest, key =>
    if k == key then rest else (k, e) :: removeEntry rest key

/-- The finalized Config Cell collection (`EnvConfig` in `classes.py`):
an insertion-ordered mapping plus the `is_dict_initialized` flag.  The
attribute mirror the source also maintains (`setattr`/`delattr` on `self`)
never raises and never feeds back into the mapping, so it is elided. -/
structure EnvConfig where
  entries : List (String × EnvEntry)
  is_dict_initialized : Bool

/-- `EnvConfig.__init__`: adopt the supplied entries and finish with
`is_dict_initialized = True`. -/
def EnvConfig.init (entries : List (String × EnvEntry)) : EnvConfig := ⟨entries, true⟩

/-- `EnvConfig.__setitem__` (`classes.py` 127-143): once initialized every
assignment raises `ImmutableError`; before that, only `ConfigValue` instances
may be stored. -/
def EnvConfig.setitem (c : EnvConfig) (k : String) (v : EnvEntry) : Except PyErr EnvConfig :=
  if c.is_dict_initialized then
    .error (.immutableError "Cannot set or update values of the environment config once initalized.")
  else
    match v with
    | .cfg w => .ok ⟨setEntry c.entries k (.cfg w), c.is_dict_initialized⟩
    | .plain _ => .error (.valueError "Value must be an instance of ConfigValue.")

/-- `EnvConfig.__delitem__` (`classes.py` 145-151): plain `dict` deletion
(no initialization check); a missing key raises `KeyError`. -/
def EnvConfig.delitem (c : EnvConfig) (k : String) : Except PyErr EnvConfig :=
  match lookupEntry c.entries k with
  | some _ => .ok ⟨removeEntry c.entries k, c.is_dict_initialized⟩
  | Option.none => .error (.keyError k)

/-- `EnvConfig.pop` (`classes.py` 161-167): plain `dict.pop` with the default
`None` (no initialization check); returns the removed entry, or `none` for
the default when the key is absent. -/
def EnvConfig.pop (c : EnvConfig) (k : String) : Option EnvEntry × EnvConfig :=
  match lookupEntry c.entries k with
  | some e => (some e, ⟨removeEntry c.entries k, c.is_dict_initialized⟩)
  | Option.none => (Option.none, c)

/-- `EnvConfig.popitem` (`classes.py` 153-159): plain `dict.popitem` (no
initialization check); removes and returns the last item, raising on an
empty mapping. -/
def EnvConfig.popitem (c : EnvConfig) : Except PyErr ((String × EnvEntry) × EnvConfig) :=
  match c.entries.getLast? with
  | some kv => .ok (kv, ⟨c.entries.dropLast, c.is_dict_initialized⟩)
  | Option.none => .error (.keyError "popitem(): dictionary is empty")

/-- `EnvConfig.get` (`classes.py` 119-121): a total read, unwrapping a
`ConfigValue` and falling back to the supplied default. -/
def EnvConfig.get (c : EnvConfig) (k : String) (default : PyVal) : PyVal :=
  match lookupEntry c.entries k with
  | some e => e.unwrap
  | Option.none => default

/-- `EnvConfig.__getitem__` (`classes.py` 123-125): unwrapped read of a
present key; a missing key raises `KeyError` as in any `dict`. -/
def EnvConfig.getitem (c : EnvConfig) (k : String) : Except PyErr PyVal :=
  match lookupEntry c.entries k with
  | some e => .ok e.unwrap
  | Option.none => .error (.keyError k)

/-- `dict.keys`, which the source does not override: a total read. -/
def EnvConfig.keysList (c : EnvConfig) : List String := c.entries.map (fun p => p.1)

/-- A class object as the `NoInheritClass` metaclass sees it: a name and the
explicit base list of its `class` statement. -/
structure PyClass where
  name : String
  bases : List String

/-- `NoInheritClass.__init__` (`classes.py` 39-43): class creation under the
metaclass; any non-empty base list aborts the `class` statement with
`ImmutableError`, so only base-less classes (such as `ConfigValue` itself,
whose statement passes no explicit bases) are ever produced. -/
def NoInheritClass_init (name : String) (bases : List String) : Except PyErr PyClass :=
  if bases.isEmpty then .ok ⟨name, bases⟩
  else .error (.immutableError ("Subclassing of " ++ name ++ " is not allowed"))

/-- The `ConfigValue` class statement: created under `NoInheritClass` with an
empty base list. -/
def ConfigValue_class : Except PyErr PyClass := NoInheritClass_init "ConfigValue" []

/-- C1.  The claim says every value containing two `@` characters is rejected
by the email semantic check.  The code contradicts it: the grammar regex is an
unanchored prefix match, so `"a@b.c@d"` passes it on the prefix `"a@b.c"`, and
the domain validation is skipped because the `@`-split has three parts, so the
value is accepted — for every state of the known-TLD table.  The second
conjunct shows the spec's own negative example `"abc@abc"` is (correctly)
rejected, isolating the failure to the two-`@` case. -/
theorem C1_email_two_at_accepted :
    ∀ tldOk : String → Bool,
      email_value_validator tldOk (PyVal.str "a@b.c@d") = Except.ok () ∧
      email_value_validator tldOk (PyVal.str "abc@abc") =
        Except.error (PyErr.valueError "Value \x27abc@abc\x27 is not a valid email address.") := by
  intro tldOk
  exact ⟨rfl, rfl⟩

/-- Witness for C1 at a concrete TLD table. -/
theorem C1_email_two_at_accepted_witness :
    email_value_validator (fun _ => true) (PyVal.str "a@b.c@d") = Except.ok () :=
  (C1_email_two_at_accepted (fun _ => true)).1

/-- C4.  The claim says each character-class check runs only when its toggle
requires it.  The code contradicts it: `_value_validator` never consults the
stored toggles, so with `special_chars=False` the password `"Xkcdefg1"`
(8 chars, upper, lower, digit, no special character, no deny-listed pattern)
still fails with the missing-special-character message. -/
theorem C4_special_check_ignores_toggle :
    (StrongPasswordDataType_init 8 Option.none false true true true Option.none).special_chars
        = false ∧
    sp_value_validator (StrongPasswordDataType_init 8 Option.none false true true true Option.none)
        (PyVal.str "Xkcdefg1") =
      Except.error (PyErr.valueError "Password must contain at least one special character.") :=
  ⟨rfl, rfl⟩

/-- C10.  Class creation under the `NoInheritClass` metaclass fails with
`ImmutableError` for every non-empty base list; `ConfigValue` itself (created
with no explicit bases) succeeds; and every class the metaclass ever lets
through has an empty base list, so no subclass of `ConfigValue` can exist and
every instance is of the exact `ConfigValue` type. -/
theorem C10_configvalue_sealed :
    (∀ (name : String) (bases : List String), bases ≠ [] →
      NoInheritClass_init name bases =
        Except.error (PyErr.immutableError ("Subclassing of " ++ name ++ " is not allowed"))) ∧
    ConfigValue_class = Except.ok ⟨"ConfigValue", []⟩ ∧
    (∀ (name : String) (bases : List String) (c : PyClass),
      NoInheritClass_init name bases = Except.ok c → c.bases = []) := by
  refine ⟨?_, rfl, ?_⟩
  · intro name bases hb
    have : bases.isEmpty = false := by
      cases bases with
      | nil => exact absurd rfl hb
      | cons x xs => rfl
    simp [NoInheritClass_init, this]
  · intro name bases c h
    unfold NoInheritClass_init at h
    by_cases hb : bases.isEmpty
    · simp [hb] at h
      have hbe : bases = [] := List.isEmpty_iff.mp hb
      rw [← h]
      exact hbe
    · simp [hb] at h

/-- Witness for C10: the subclass attempt `class Sub(ConfigValue)` aborts. -/
theorem C10_configvalue_sealed_witness :
    NoInheritClass_init "Sub" ["ConfigValue"] =
      Except.error (PyErr.immutableError "Subclassing of Sub is not allowed") :=
  C10_configvalue_sealed.1 "Sub" ["ConfigValue"] (by simp)

/-- A finalized one-entry collection used by the C2 counterexample. -/
def c2Demo : EnvConfig := EnvConfig.init [("a", EnvEntry.cfg (PyVal.int 1))]

/-- C2 counterexample.  The claim says every deletion attempt on an
initialized collection fails with an immutability error and leaves it
unchanged.  On this initialized collection, `del`, `pop` and `popitem` all
succeed and remove the entry: none of the deletion paths consults
`is_dict_initialized`. -/
theorem C2_deletion_succeeds_after_init :
    c2Demo.is_dict_initialized = true ∧
    EnvConfig.delitem c2Demo "a" = Except.ok ⟨[], true⟩ ∧
    EnvConfig.pop c2Demo "a" = (some (EnvEntry.cfg (PyVal.int 1)), ⟨[], true⟩) ∧
    EnvConfig.popitem c2Demo = Except.ok (("a", EnvEntry.cfg (PyVal.int 1)), ⟨[], true⟩) :=
  ⟨rfl, rfl, rfl, rfl⟩

/-- C2, amended.  After initialization, item assignment (insertion or
replacement) always fails with the `ImmutableError` and the collection is not
changed (the operation returns no new state); item deletion, `pop` and
`popitem` are plain `dict` mutations that succeed on present keys; reads
through `get` are total, and item access of a present key returns the
unwrapped canonical value without raising. -/
theorem C2_envconfig_immutability (c : EnvConfig) (k : String) (v : EnvEntry)
    (d : PyVal) (e : EnvEntry) (hinit : c.is_dict_initialized = true) :
    EnvConfig.setitem c k v =
      Except.error (PyErr.immutableError
        "Cannot set or update values of the environment config once initalized.") ∧
    (lookupEntry c.entries k = some e →
      EnvConfig.delitem c k = Except.ok ⟨removeEntry c.entries k, true⟩ ∧
      EnvConfig.pop c k = (some e, ⟨removeEntry c.entries k, true⟩) ∧
      EnvConfig.getitem c k = Except.ok e.unwrap ∧
      EnvConfig.get c k d = e.unwrap) ∧
    (lookupEntry c.entries k = Option.none → EnvConfig.get c k d = d) := by
  obtain ⟨entries, flag⟩ := c
  simp only [EnvConfig.is_dict_initialized] at hinit
  subst hinit
  refine ⟨rfl, ?_, ?_⟩
  · intro h
    exact ⟨by simp [EnvConfig.delitem, h], by simp [EnvConfig.pop, h],
      by simp [EnvConfig.getitem, h], by simp [EnvConfig.get, h]⟩
  · intro h
    simp [EnvConfig.get, h]

/-- Witness for C2 at the demo collection. -/
theorem C2_envconfig_immutability_witness :
    EnvConfig.setitem (EnvConfig.init [("a", EnvEntry.cfg (PyVal.int 1))]) "a"
        (EnvEntry.cfg (PyVal.int 5)) =
      Except.error (PyErr.immutableError
        "Cannot set or update values of the environment config once initalized.") :=
  (C2_envconfig_immutability (EnvConfig.init [("a", EnvEntry.cfg (PyVal.int 1))]) "a"
    (EnvEntry.cfg (PyVal.int 5)) PyVal.none (EnvEntry.cfg (PyVal.int 1)) rfl).1

/-- C6.  Under the Global Masking Policy: with the reveal switch on, no proxy
is ever created and the canonical value is returned unchanged for every
descriptor; with the reveal switch off and a secret-flagged descriptor, any
proxy the wrap produces displays the fixed redaction marker `"******"` under
both string conversion and representation, and its reveal accessor
(`unmasked`) returns exactly the value that was wrapped. -/
theorem C6_masking_reveal_policy :
    (∀ (mask : Bool) (pol : Policy) (v : PyVal), pol.reveal = true →
      convert_to_secure_value mask pol v = Except.ok v) ∧
    (∀ (pol : Policy) (v p : PyVal), pol.reveal = false →
      convert_to_secure_value true pol v = Except.ok p → isSecure p = true →
      pyStr p = some "******" ∧ pyRepr p = some "******" ∧ unmasked p = some v) := by
  constructor
  · intro mask pol v h
    simp [convert_to_secure_value, h]
  · intro pol v p hrev hc hs
    simp only [convert_to_secure_value, hrev, Bool.not_false, Bool.and_true] at hc
    cases hm : pol.mutForm <;>
      cases v <;>
        simp [CreateSecureValue, hm] at hc <;>
          (try subst hc) <;>
          first
          | exact ⟨rfl, rfl, rfl⟩
          | simp [isSecure] at hs

/-- Witness for C6 at the spec's example: the secret value `2` under the
masking policy (reveal off, mutable on). -/
theorem C6_masking_reveal_policy_witness :
    pyStr (PyVal.secureMut (PyVal.int 2)) = some "******" ∧
    pyRepr (PyVal.secureMut (PyVal.int 2)) = some "******" ∧
    unmasked (PyVal.secureMut (PyVal.int 2)) = some (PyVal.int 2) :=
  C6_masking_reveal_policy.2 ⟨false, true⟩ (PyVal.int 2) (PyVal.secureMut (PyVal.int 2))
    rfl rfl rfl

/-- C7.  For every forwarded member call whose re-execution on the original
value returns the `NotImplemented` sentinel (and is not short-circuited by the
ignored-member list; the sentinel is never an instance of the ignored carrier
class): an ordering comparison raises a `TypeError` whose message names the
symbolic operator and both operand class names, and an equality comparison
returns the plain boolean `False`. -/
theorem C7_comparison_dispatch :
    ∀ (selfC argC : String) (ic : PyVal → Bool) (im : List String) (name sym : String),
      ic PyVal.notImplemented = false →
      im.contains name = false →
      (name, sym) ∈ comparion_method_symbol →
      (name ∈ compariosn_methods_with_type_error →
        method_wrapper selfC argC name ic im PyVal.notImplemented =
          Except.error (PyErr.typeError ("\x27" ++ sym ++
            "\x27 not supported between instances of \x27" ++ selfC ++
            "\x27 and \x27" ++ argC ++ "\x27"))) ∧
      (name ∈ compariosn_methods_with_return →
        method_wrapper selfC argC name ic im PyVal.notImplemented =
          Except.ok (PyVal.bool false)) := by
  intro selfC argC ic im name sym hic him hmem
  simp only [comparion_method_symbol, List.mem_cons, List.not_mem_nil, or_false,
    Prod.mk.injEq] at hmem
  rcases hmem with ⟨h1, h2⟩ | ⟨h1, h2⟩ | ⟨h1, h2⟩ | ⟨h1, h2⟩ | ⟨h1, h2⟩ | ⟨h1, h2⟩ <;>
    subst h1 <;> subst h2 <;>
      constructor <;> intro hin <;>
        simp [method_wrapper, isNoneV, isNotImplementedV, hic, him, comparisonSymbol,
          comparion_method_symbol, compariosn_methods_with_type_error,
          compariosn_methods_with_return] at hin ⊢ <;>
        simpa using him

/-- Witness for C7 at the members `__lt__` and `__eq__`. -/
theorem C7_comparison_dispatch_witness :
    method_wrapper "SecureValue" "str" "__lt__" (fun _ => false) ["__len__"]
        PyVal.notImplemented =
      Except.error (PyErr.typeError
        "\x27<\x27 not supported between instances of \x27SecureValue\x27 and \x27str\x27") ∧
    method_wrapper "SecureValue" "str" "__eq__" (fun _ => false) ["__len__"]
        PyVal.notImplemented =
      Except.ok (PyVal.bool false) :=
  ⟨(C7_comparison_dispatch "SecureValue" "str" (fun _ => false) ["__len__"] "__lt__" "<"
      rfl (by decide) (by decide)).1 (by decide),
   (C7_comparison_dispatch "SecureValue" "str" (fun _ => false) ["__len__"] "__eq__" "=="
      rfl (by decide) (by decide)).2 (by decide)⟩

/-- The StrongPassword rule order as the specification states it: independent
rule predicates paired with their messages, in the fixed order
length-below-minimum, length-above-maximum, missing uppercase, missing
lowercase, missing digit, missing special character, common-pattern match. -/
def spRuleList (p : SPParams) : List ((String → Bool) × String) :=
  [(fun pw => decide (pw.length < p.min_length),
    "Password must be at least " ++ toString p.min_length ++ " characters long."),
   (fun pw => (match p.max_length with | some m => decide (m < pw.length) | Option.none => false),
    "Password must be at most " ++
      (match p.max_length with | some m => toString m | Option.none => "inf") ++
      " characters long."),
   (fun pw => !hasUpperChar pw, "Password must contain at least one uppercase letter."),
   (fun pw => !hasLowerChar pw, "Password must contain at least one lowercase letter."),
   (fun pw => !hasDigitChar pw, "Password must contain at least one digit."),
   (fun pw => !hasSpecialChar p.special_chars_list pw,
    "Password must contain at least one special character."),
   (fun pw => hasCommonPattern pw, "Password should not contain common patterns or sequences.")]

/-- Message of the first failing rule, `none` when every rule passes. -/
def firstFailingRule : List ((String → Bool) × String) → String → Option String
  | [], _ => Option.none
  | (test, msg) :: rest, pw => if test pw then some msg else firstFailingRule rest pw

/-- The default-configured StrongPassword descriptor parameters. -/
def spDefaults : SPParams :=
  StrongPasswordDataType_init 8 Option.none true true true true Option.none

/-- C5.  For every configuration and every password string, the validator
reports exactly the message of the first failing rule in the fixed order (and
accepts when no rule fails); the seven messages are pairwise distinct; and the
spec's two example orderings hold: `"Abc@14"` fails on minimum length before
any later rule, and `"Abc@1234!"` fails the common-pattern rule although every
character-class rule passes. -/
theorem C5_strongpassword_first_failure_order :
    (∀ (p : SPParams) (pw : String),
      sp_value_validator p (PyVal.str pw) =
        (match firstFailingRule (spRuleList p) pw with
         | some m => Except.error (PyErr.valueError m)
         | Option.none => Except.ok ())) ∧
    ((spRuleList spDefaults).map (fun r => r.2)).Pairwise (fun a b => a ≠ b) ∧
    sp_value_validator spDefaults (PyVal.str "Abc@14") =
      Except.error (PyErr.valueError "Password must be at least 8 characters long.") ∧
    sp_value_validator spDefaults (PyVal.str "Abc@1234!") =
      Except.error (PyErr.valueError "Password should not contain common patterns or sequences.") := by
  refine ⟨?_, by decide, rfl, rfl⟩
  intro p pw
  simp only [sp_value_validator, proxyOriginal, pyLen, spRuleList, firstFailingRule, bind,
    Except.bind]
  by_cases h1 : pw.length < p.min_length
  · simp [proxyOriginal, h1]
  · simp only [h1, if_false, decide_eq_true_eq, if_neg h1, decide_False, Bool.false_eq_true]
    cases h2 : (match p.max_length with | some m => decide (m < pw.length) | Option.none => false)
    · cases h3 : hasUpperChar pw
      · simp [proxyOriginal, h2, h3]
      · cases h4 : hasLowerChar pw
        · simp [proxyOriginal, h2, h3, h4]
        · cases h5 : hasDigitChar pw
          · simp [proxyOriginal, h2, h3, h4, h5]
          · cases h6 : hasSpecialChar p.special_chars_list pw
            · simp [proxyOriginal, h2, h3, h4, h5, h6]
            · cases h7 : hasCommonPattern pw <;> simp [proxyOriginal, h2, h3, h4, h5, h6, h7]
    · simp [proxyOriginal, h2]

/-- `stripEvens` keeps the denoted value `m * 2^e` fixed and never lowers a
nonnegative exponent. -/
theorem stripEvens_value (fuel : Nat) :
    ∀ (m : Nat) (e : Int), 0 ≤ e →
      0 ≤ (stripEvens fuel m e).2 ∧
      (stripEvens fuel m e).1 * 2 ^ (stripEvens fuel m e).2.toNat = m * 2 ^ e.toNat := by
  induction fuel with
  | zero => intro m e he; exact ⟨he, rfl⟩
  | succ fuel ih =>
    intro m e he
    by_cases h : (m % 2 == 0 && m != 0) = true
    · have hmod : m % 2 = 0 := by
        have := (Bool.and_eq_true _ _).mp h
        simpa using this.1
      have hstep : stripEvens (fuel + 1) m e = stripEvens fuel (m / 2) (e + 1) := by
        simp [stripEvens, h]
      obtain ⟨h1, h2⟩ := ih (m / 2) (e + 1) (by omega)
      rw [hstep]
      refine ⟨h1, ?_⟩
      rw [h2]
      have htn : (e + 1).toNat = e.toNat + 1 := by omega
      have hm2 : m / 2 * 2 = m := Nat.div_mul_cancel (Nat.dvd_of_mod_eq_zero hmod)
      calc m / 2 * 2 ^ (e + 1).toNat = (m / 2 * 2) * 2 ^ e.toNat := by rw [htn]; ring
        _ = m * 2 ^ e.toNat := by rw [hm2]
    · have hstep : stripEvens (fuel + 1) m e = (m, e) := by
        simp only [stripEvens]
        rw [if_neg h]
      rw [hstep]
      exact ⟨he, rfl⟩

/-- A double built by `mkFinite n 0` denotes exactly `n`. -/
theorem pyIntEqFloat_mkFinite (n : Int) : pyIntEqFloat n (mkFinite n 0) = true := by
  unfold mkFinite
  by_cases h0 : (n == 0) = true
  · have : n = 0 := by simpa using h0
    subst this
    rfl
  · simp only [h0, Bool.false_eq_true, if_false]
    obtain ⟨hpos, hval⟩ := stripEvens_value 64 n.natAbs 0 le_rfl
    simp only [Int.toNat_zero, pow_zero, mul_one] at hval
    simp only [pyIntEqFloat, if_pos hpos, beq_iff_eq]
    have hvalZ : ((stripEvens 64 n.natAbs 0).1 : Int) * ((2 ^ (stripEvens 64 n.natAbs 0).2.toNat : Nat) : Int)
        = (n.natAbs : Int) := by exact_mod_cast hval
    by_cases hn : n < 0
    · simp only [if_pos hn, neg_mul]
      omega
    · simp only [if_neg hn]
      omega

/-- Integers within `2^53` in magnitude survive the decimal-to-double
round-trip exactly. -/
theorem roundIntToDouble_exact (n : Int) (h : n.natAbs ≤ 2 ^ 53) :
    pyIntEqFloat n (roundIntToDouble n) = true := by
  unfold roundIntToDouble
  rw [if_pos h]
  exact pyIntEqFloat_mkFinite n

/-- C3, amended.  The Integer descriptor's convert stage accepts a text
representation `t` of an integer `n` and yields exactly the integral `n`
whenever `n` is exactly representable as a binary64 double (in particular for
every `|n| ≤ 2^53`); every string that is not an integer literal — including
every fractional string — is rejected with the `int()` parse error.  (The
unamended universal claim fails at `2^53 + 1`; see the counterexample.) -/
theorem C3_integer_text_roundtrip :
    (∀ (sb : Bool) (n : Int) (t : String),
      pyIntOfString t = some n → n.natAbs ≤ 2 ^ 53 →
      integer_convert_type sb (PyVal.str t) = Except.ok (PyVal.int n)) ∧
    (∀ (sb : Bool) (t : String),
      pyIntOfString t = Option.none →
      integer_convert_type sb (PyVal.str t) =
        Except.error (PyErr.valueError
          ("invalid literal for int() with base 10: \x27" ++ t ++ "\x27"))) := by
  constructor
  · intro sb n t hparse hbound
    simp [integer_convert_type, hparse, roundIntToDouble_exact n hbound]
  · intro sb t hparse
    simp [integer_convert_type, hparse]

/-- Witness for C3 at the text `"7"`. -/
theorem C3_integer_text_roundtrip_witness :
    integer_convert_type false (PyVal.str "7") = Except.ok (PyVal.int 7) :=
  C3_integer_text_roundtrip.1 false 7 "7" rfl (by decide)

/-- C3 counterexample.  `"9007199254740993"` is the decimal text of the
integer `2^53 + 1`, yet the convert stage rejects it: its float parse rounds
to `2^53`, so the exact round-trip check `int(t) == float(t)` fails.  This
refutes the claim's universal quantification over all integers. -/
theorem C3_large_integer_text_rejected :
    pyIntOfString "9007199254740993" = some 9007199254740993 ∧
    integer_convert_type false (PyVal.str "9007199254740993") =
      Except.error (PyErr.valueError
        "Value 9007199254740993 must be an integer not of type float or boolean.") := by
  constructor
  · rfl
  · set_option maxRecDepth 8192 in rfl

/-- A three-part message whose fixed parts already exceed 14 characters cannot
be the 14-character sentinel message. -/
theorem append3_ne_vns (a m b : String) (h : 14 < a.length + b.length) :
    a ++ m ++ b ≠ "Value not set." := by
  intro he
  have hl := congrArg String.length he
  simp only [String.length_append] at hl
  have hv : ("Value not set." : String).length = 14 := rfl
  rw [hv] at hl
  omega

/-- Errors escaping the proxy wrap are attribute errors, never the
empty-value error. -/
theorem convert_to_secure_value_error_kind (m : Bool) (pol : Policy) (v : PyVal) (e : PyErr)
    (h : convert_to_secure_value m pol v = .error e) : ∃ s, e = .attributeError s := by
  unfold convert_to_secure_value at h
  by_cases hm : (m && !pol.reveal) = true
  · rw [if_pos hm] at h
    cases v <;>
      [skip; skip; skip; skip; skip; skip; skip;
       (cases hmu : pol.mutForm <;> simp [CreateSecureValue, hmu] at h;
        exact ⟨_, h.symm⟩);
       (cases hmu : pol.mutForm <;> simp [CreateSecureValue, hmu] at h;
        exact ⟨_, h.symm⟩);
       skip] <;>
      simp [CreateSecureValue] at h
  · rw [if_neg hm] at h
    exact absurd h (by simp)

/-- Errors escaping truthiness evaluation are type errors. -/
theorem pyTruthy_error_kind (w : PyVal) : ∀ e, pyTruthy w = .error e → ∃ s, e = .typeError s :=
  match w with
  | .secureImm c _ => fun e h => pyTruthy_error_kind c e (by simpa [pyTruthy] using h)
  | .none => by simp [pyTruthy]
  | .bool _ => by simp [pyTruthy]
  | .int _ => by simp [pyTruthy]
  | .float _ => by simp [pyTruthy]
  | .str _ => by simp [pyTruthy]
  | .list _ => by simp [pyTruthy]
  | .dict _ => by simp [pyTruthy]
  | .notImplemented => by simp [pyTruthy]
  | .secureMut o => by
    cases o <;> simp [pyTruthy] <;> intro e h <;> exact ⟨_, h.symm⟩

/-- Inversion for a failing precheck on a present value: either it is the
empty-value error with the sentinel comparison truthy, or a type error from
the truthiness protocol. -/
theorem precheck_some_inv (w : PyVal) (e : PyErr)
    (h : precheck_empty_value (some w) = .error e) :
    (e = .valueError "Value not set." ∧ pyTruthy (pyEq w (.str "NOT_SET")) = .ok true) ∨
    (∃ s, e = .typeError s) := by
  have h2 : (do
      let b ← pyTruthy (pyEq w (.str "NOT_SET"))
      if b = true then Except.error (PyErr.valueError "Value not set.") else Except.ok ())
      = Except.error e := h
  cases ht : pyTruthy (pyEq w (.str "NOT_SET")) with
  | error e2 =>
    rw [ht] at h2
    have h3 : Except.error (α := Unit) e2 = Except.error e := h2
    cases Except.error.inj h3
    exact Or.inr (pyTruthy_error_kind _ _ ht)
  | ok b =>
    rw [ht] at h2
    cases b
    · exact Except.noConfusion (show Except.ok (ε := PyErr) () = Except.error e from h2)
    · have h3 : Except.error (α := Unit) (PyErr.valueError "Value not set.") = Except.error e := h2
      exact Or.inl ⟨(Except.error.inj h3).symm, rfl⟩

/-- The integer converter never produces the empty-value error. -/
theorem integer_convert_no_vns (sb : Bool) (v : PyVal) :
    integer_convert_type sb v ≠ .error (.valueError "Value not set.") := by
  intro h
  cases v with
  | bool b =>
    by_cases hsb : sb
    · simp [integer_convert_type, hsb] at h
    · simp [integer_convert_type, hsb] at h
      exact append3_ne_vns "Value " _ " must be an integer not of type float or boolean."
        (by decide) h
  | str s =>
    cases hp : pyIntOfString s with
    | none =>
      simp [integer_convert_type, hp] at h
      exact append3_ne_vns "invalid literal for int() with base 10: \x27" _ "\x27" (by decide) h
    | some n =>
      by_cases hq : pyIntEqFloat n (roundIntToDouble n) = true
      · simp [integer_convert_type, hp, hq] at h
      · simp [integer_convert_type, hp, hq] at h
        exact append3_ne_vns "Value " _ " must be an integer not of type float or boolean."
          (by decide) h
  | float f =>
    cases f with
    | inf b => simp [integer_convert_type] at h
    | nan => simp [integer_convert_type] at h
    | finite m e =>
      obtain ⟨k, hk⟩ : ∃ k, pyTruncFloat (.finite m e) = some k := by
        unfold pyTruncFloat
        by_cases he : (0 : Int) ≤ e <;> simp [he]
      simp only [integer_convert_type, hk] at h
      by_cases hq : pyIntEqFloat k (.finite m e) = true
      · simp [hq] at h
      · simp [hq] at h
        exact append3_ne_vns "Value " _ " must be an integer not of type float or boolean."
          (by decide) h
  | int n => simp [integer_convert_type] at h
  | none => simp [integer_convert_type] at h
  | list xs => simp [integer_convert_type] at h
  | dict xs => simp [integer_convert_type] at h
  | secureMut o => simp [integer_convert_type] at h
  | secureImm c o => simp [integer_convert_type] at h
  | notImplemented => simp [integer_convert_type] at h

/-- The float converter never produces the empty-value error. -/
theorem float_convert_no_vns (sinf sb : Bool) (v : PyVal) :
    float_convert_type sinf sb v ≠ .error (.valueError "Value not set.") := by
  intro h
  cases v with
  | str s =>
    by_cases hi : (!sinf && (String.mk (trimChars (lowerChars s.toList)) == "inf"
        || String.mk (trimChars (lowerChars s.toList)) == "-inf")) = true
    · simp only [float_convert_type, hi, if_true, if_pos] at h
      simp at h
      exact append3_ne_vns "Value " _ " must be a finite float." (by decide) h
    · simp only [float_convert_type] at h
      rw [if_neg hi] at h
      cases hp : pyFloatOfString s with
      | none =>
        rw [hp] at h
        simp at h
        exact append3_ne_vns "could not convert string to float: \x27" _ "\x27" (by decide) h
      | some f => rw [hp] at h; simp at h
  | bool b =>
    by_cases hsb : sb
    · simp [float_convert_type, hsb] at h
    · simp [float_convert_type, hsb] at h
      exact append3_ne_vns "Value " _ " must be a float and not a boolean." (by decide) h
  | int n =>
    cases hr : roundIntToDouble n <;> simp [float_convert_type, pyFloatOfInt, hr] at h
  | float f => simp [float_convert_type] at h
  | none => simp [float_convert_type] at h
  | list xs => simp [float_convert_type] at h
  | dict xs => simp [float_convert_type] at h
  | secureMut o => simp [float_convert_type] at h
  | secureImm c o => simp [float_convert_type] at h
  | notImplemented => simp [float_convert_type] at h

/-- The boolean converter never produces the empty-value error. -/
theorem boolean_convert_no_vns (v : PyVal) :
    boolean_convert_type v ≠ .error (.valueError "Value not set.") := by
  intro h
  have hlong : ∀ m : String,
      "Value " ++ m ++ " must be in a string format or boolean. Valid values are: true, 1, yes, y, false, 0, no, n."
        ≠ "Value not set." :=
    fun m => append3_ne_vns _ _ _ (by decide)
  cases v with
  | bool b => simp [boolean_convert_type] at h
  | int n =>
    by_cases h01 : (n == 0 || n == 1) = true
    · simp [boolean_convert_type, h01] at h
    · simp [boolean_convert_type, h01] at h
      exact append3_ne_vns "Value " _
        " as an interger is not supported for boolean conversion." (by decide) h
  | str s =>
    simp only [boolean_convert_type] at h
    split at h
    · simp at h
    · split at h
      · simp at h
      · simp [pyMsgStr] at h
        exact hlong _ h
  | none => simp [boolean_convert_type] at h; exact hlong _ h
  | float f => simp [boolean_convert_type] at h; exact hlong _ h
  | list xs => simp [boolean_convert_type] at h; exact hlong _ h
  | dict xs => simp [boolean_convert_type] at h; exact hlong _ h
  | secureMut o => simp [boolean_convert_type] at h; exact hlong _ h
  | secureImm c o => simp [boolean_convert_type] at h; exact hlong _ h
  | notImplemented => simp [boolean_convert_type] at h; exact hlong _ h

/-- The list converter never produces the empty-value error. -/
theorem list_convert_no_vns (jl : String → Option PyVal) (v : PyVal) :
    list_convert_type jl v ≠ .error (.valueError "Value not set.") := by
  intro h
  cases v <;> simp [list_convert_type] at h
  case str s =>
    cases hp : jl s <;> rw [hp] at h <;> simp at h
    exact append3_ne_vns "Value " _ " is not a valid list in JSON format." (by decide) h

/-- The dictionary converter never produces the empty-value error. -/
theorem dict_convert_no_vns (jl : String → Option PyVal) (v : PyVal) :
    dict_convert_type jl v ≠ .error (.valueError "Value not set.") := by
  intro h
  cases v <;> simp [dict_convert_type] at h
  case str s =>
    cases hp : jl s <;> rw [hp] at h <;> simp at h
    exact append3_ne_vns "Value " _ " is not a valid dictionary in JSON format." (by decide) h

/-- Stage 2 as a whole never produces the empty-value error. -/
theorem desc_convert_no_vns (jl : String → Option PyVal) (d : Desc) (v : PyVal) :
    desc_convert_type jl d v ≠ .error (.valueError "Value not set.") := by
  cases d with
  | integer cv sb =>
    by_cases hc : cv
    · simpa [desc_convert_type, hc] using integer_convert_no_vns sb v
    · simp [desc_convert_type, hc]
  | positiveInteger cv =>
    by_cases hc : cv
    · simpa [desc_convert_type, hc] using integer_convert_no_vns false v
    · simp [desc_convert_type, hc]
  | negativeInteger cv =>
    by_cases hc : cv
    · simpa [desc_convert_type, hc] using integer_convert_no_vns false v
    · simp [desc_convert_type, hc]
  | float cv sinf sb =>
    by_cases hc : cv
    · simpa [desc_convert_type, hc] using float_convert_no_vns sinf sb v
    · simp [desc_convert_type, hc]
  | boolean cv =>
    by_cases hc : cv
    · simpa [desc_convert_type, hc] using boolean_convert_no_vns v
    · simp [desc_convert_type, hc]
  | list cv =>
    by_cases hc : cv
    · simpa [desc_convert_type, hc] using list_convert_no_vns jl v
    · simp [desc_convert_type, hc]
  | dict cv =>
    by_cases hc : cv
    · simpa [desc_convert_type, hc] using dict_convert_no_vns jl v
    · simp [desc_convert_type, hc]
  | string => simp [desc_convert_type]
  | any => simp [desc_convert_type]
  | secret => simp [desc_convert_type]
  | strongPassword p => simp [desc_convert_type]
  | email => simp [desc_convert_type]

/-- The type check only raises type errors. -/
theorem desc_validate_no_vns (d : Desc) (v : PyVal) :
    desc_validate_type d v ≠ .error (.valueError "Value not set.") := by
  intro h
  unfold desc_validate_type at h
  split at h <;> simp at h

/-- Inversion of a failing `Except` bind. -/
theorem except_bind_error_inv {ε α β : Type} (x : Except ε α) (f : α → Except ε β) (e : ε)
    (h : (x >>= f) = .error e) : x = .error e ∨ ∃ a, x = .ok a ∧ f a = .error e := by
  cases x with
  | error e2 =>
    have h2 : Except.error (α := β) e2 = .error e := h
    cases Except.error.inj h2
    exact Or.inl rfl
  | ok a => exact Or.inr ⟨a, rfl, h⟩

/-- Inversion of a successful `Except` bind. -/
theorem except_bind_ok_inv {ε α β : Type} (x : Except ε α) (f : α → Except ε β) (b : β)
    (h : (x >>= f) = .ok b) : ∃ a, x = .ok a ∧ f a = .ok b := by
  cases x with
  | error e2 => exact Except.noConfusion (show Except.error (α := β) e2 = .ok b from h)
  | ok a => exact ⟨a, rfl, h⟩

/-- `len()` failures are type errors. -/
theorem pyLen_error_kind (v : PyVal) : ∀ e, pyLen v = .error e → ∃ s, e = .typeError s :=
  match v with
  | .secureMut o => fun e h => pyLen_error_kind o e (by simpa [pyLen] using h)
  | .secureImm c _ => fun e h => pyLen_error_kind c e (by simpa [pyLen] using h)
  | .str _ => by simp [pyLen]
  | .list _ => by simp [pyLen]
  | .dict _ => by simp [pyLen]
  | .none => by intro e h; simp [pyLen] at h; exact ⟨_, h.symm⟩
  | .bool _ => by intro e h; simp [pyLen] at h; exact ⟨_, h.symm⟩
  | .int _ => by intro e h; simp [pyLen] at h; exact ⟨_, h.symm⟩
  | .float _ => by intro e h; simp [pyLen] at h; exact ⟨_, h.symm⟩
  | .notImplemented => by intro e h; simp [pyLen] at h; exact ⟨_, h.symm⟩

/-- The password validator never produces the empty-value error. -/
theorem sp_no_vns (p : SPParams) (v : PyVal) :
    sp_value_validator p v ≠ .error (.valueError "Value not set.") := by
  intro h
  unfold sp_value_validator at h
  rcases except_bind_error_inv _ _ _ h with hl | ⟨n, hl, h3⟩
  · obtain ⟨s, hs⟩ := pyLen_error_kind _ _ hl
    exact PyErr.noConfusion hs
  · split at h3
    · simp at h3
      exact append3_ne_vns "Password must be at least " _ " characters long." (by decide) h3
    · split at h3
      · simp at h3
        exact append3_ne_vns "Password must be at most " _ " characters long." (by decide) h3
      · cases hq : proxyOriginal v <;> rw [hq] at h3 <;> try simp at h3
        case str s =>
          split at h3
          · simp at h3
          · split at h3
            · simp at h3
            · split at h3
              · simp at h3
              · split at h3
                · simp at h3
                · split at h3 <;> simp at h3

/-- The email validator never produces the empty-value error. -/
theorem email_no_vns (tk : String → Bool) (v : PyVal) :
    email_value_validator tk v ≠ .error (.valueError "Value not set.") := by
  intro h
  cases v <;> simp only [email_value_validator] at h <;> try simp at h
  case str s =>
    split at h
    · simp at h
      exact append3_ne_vns "Value \x27" _ "\x27 is not a valid email address." (by decide) h
    · split at h
      · split at h
        · simp at h
          exact append3_ne_vns "Value \x27" _ "\x27 is not a valid email address." (by decide) h
        · simp at h
      · simp at h

/-- Stage 4 as a whole never produces the empty-value error. -/
theorem desc_vv_no_vns (tk : String → Bool) (d : Desc) (v : PyVal) :
    desc_value_validator tk d v ≠ .error (.valueError "Value not set.") := by
  cases d with
  | string =>
    intro h
    cases v <;> simp [desc_value_validator, pyMsgStr] at h <;>
      exact append3_ne_vns "Value " _ " must be a string." (by decide) h
  | integer cv sb =>
    intro h
    cases v <;> simp [desc_value_validator, pyMsgStr] at h <;>
      exact append3_ne_vns "Value " _ " must be an integer." (by decide) h
  | positiveInteger cv =>
    intro h
    cases v <;> simp only [desc_value_validator] at h <;> try simp at h
    case int n =>
      split at h <;> simp [pyMsgStr] at h
      exact append3_ne_vns "Value " _ " must be a positive integer." (by decide) h
    case bool b =>
      split at h <;> simp [pyMsgStr] at h
      exact append3_ne_vns "Value " _ " must be a positive integer." (by decide) h
  | negativeInteger cv =>
    intro h
    cases v <;> simp only [desc_value_validator] at h <;> try simp at h
    case int n =>
      split at h <;> simp [pyMsgStr] at h
      exact append3_ne_vns "Value " _ " must be a negative integer." (by decide) h
    case bool b =>
      simp [pyMsgStr] at h
      exact append3_ne_vns "Value " _ " must be a negative integer." (by decide) h
  | strongPassword p => exact sp_no_vns p v
  | email => exact email_no_vns tk v
  | float cv si sb => simp [desc_value_validator]
  | boolean cv => simp [desc_value_validator]
  | list cv => simp [desc_value_validator]
  | dict cv => simp [desc_value_validator]
  | any => simp [desc_value_validator]
  | secret => simp [desc_value_validator]

/-- C9, amended.  (i) Whenever the supplied value is not wrapped in a mutable
masking proxy — i.e. for every non-secret descriptor, and for secret
descriptors when the reveal switch is on or the immutable form is configured —
calling `set_value` with the literal string `"NOT_SET"` fails with the
empty-value error `"Value not set."` even though a value was supplied.
(ii) Under the masking policy (reveal off, mutable on) the secret descriptor
instead accepts `"NOT_SET"`: the wrapped equality yields a proxy-of-bool whose
int-subclass instance is falsy, so the precheck passes (this is the
counterexample to the unamended claim).  (iii) The precheck's no-value branch
is unreachable within `set_value`: whenever `set_value` fails with the
empty-value error, the wrap succeeded and the error arose from the sentinel
comparison on the supplied value being truthy — no other stage can produce
that message. -/
theorem C9_not_set_sentinel :
    (∀ (d : Desc) (pol : Policy) (jl : String → Option PyVal) (tk : String → Bool),
      descMask d = false ∨ pol.reveal = true ∨ pol.mutForm = false →
      set_value pol jl tk Option.none d (PyVal.str "NOT_SET") =
        Except.error (PyErr.valueError "Value not set.")) ∧
    (∀ (jl : String → Option PyVal) (tk : String → Bool),
      set_value ⟨false, true⟩ jl tk Option.none Desc.secret (PyVal.str "NOT_SET") =
        Except.ok (PyVal.secureMut (PyVal.str "NOT_SET"))) ∧
    (∀ (d : Desc) (pol : Policy) (jl : String → Option PyVal) (tk : String → Bool) (v : PyVal),
      set_value pol jl tk Option.none d v = Except.error (PyErr.valueError "Value not set.") →
      ∃ v1, convert_to_secure_value (descMask d) pol v = Except.ok v1 ∧
        pyTruthy (pyEq v1 (PyVal.str "NOT_SET")) = Except.ok true) := by
  refine ⟨?_, fun jl tk => rfl, ?_⟩
  · intro d pol jl tk hyp
    rcases hyp with hm | hr | hmu
    · simp [set_value, convert_to_secure_value, hm, precheck_empty_value, pyEq, pyEqPlain,
        pyTruthy, bind, Except.bind]
    · simp [set_value, convert_to_secure_value, hr, precheck_empty_value, pyEq, pyEqPlain,
        pyTruthy, bind, Except.bind]
    · cases hm2 : descMask d
      · simp [set_value, convert_to_secure_value, hm2, precheck_empty_value, pyEq, pyEqPlain,
          pyTruthy, bind, Except.bind]
      · cases hrv : pol.reveal <;>
          simp [set_value, convert_to_secure_value, hm2, hmu, hrv, CreateSecureValue, immContent,
            precheck_empty_value, pyEq, pyEqPlain, pyTruthy, bind, Except.bind]
  · intro d pol jl tk v h
    unfold set_value at h
    rcases except_bind_error_inv _ _ _ h with hw | ⟨v1, hw, h1⟩
    · obtain ⟨s, hs⟩ := convert_to_secure_value_error_kind _ _ _ _ hw
      exact PyErr.noConfusion hs
    · rcases except_bind_error_inv _ _ _ h1 with hp | ⟨u, hp, h2⟩
      · rcases precheck_some_inv _ _ hp with ⟨he, ht⟩ | ⟨s, hs⟩
        · exact ⟨v1, hw, ht⟩
        · exact PyErr.noConfusion hs
      · rcases except_bind_error_inv _ _ _ h2 with hc | ⟨v2, hc, h3⟩
        · exact absurd hc (desc_convert_no_vns jl d v1)
        · rcases except_bind_error_inv _ _ _ h3 with hv | ⟨u2, hv, h4⟩
          · exact absurd hv (desc_validate_no_vns d v2)
          · rcases except_bind_error_inv _ _ _ h4 with hvv | ⟨u3, hvv, h5⟩
            · exact absurd hvv (desc_vv_no_vns tk d v2)
            · rcases except_bind_error_inv _ _ _ h5 with hu | ⟨u4, hu, h6⟩
              · exact Except.noConfusion (show Except.ok () = Except.error _ from hu)
              · exact Except.noConfusion (show Except.ok v2 = Except.error _ from h6)

/-- Witness for C9 at the String descriptor. -/
theorem C9_not_set_sentinel_witness :
    set_value ⟨true, true⟩ (fun _ => Option.none) (fun _ => false) Option.none Desc.string
        (PyVal.str "NOT_SET") =
      Except.error (PyErr.valueError "Value not set.") :=
  C9_not_set_sentinel.1 Desc.string ⟨true, true⟩ (fun _ => Option.none) (fun _ => false)
    (Or.inl rfl)

/-- C9 counterexample.  Under the default runtime policy (reveal off, mutable
on) the secret descriptor's `set_value` on the literal `"NOT_SET"` does not
fail with the empty-value error — it completes successfully, because the
masked sentinel comparison evaluates falsy.  This refutes the claim's
quantification over every descriptor. -/
theorem C9_secret_not_set_accepted :
    set_value ⟨false, true⟩ (fun _ => Option.none) (fun _ => false) Option.none Desc.secret
        (PyVal.str "NOT_SET") =
      Except.ok (PyVal.secureMut (PyVal.str "NOT_SET")) := rfl

/-- Successful integer conversion always yields an `int`. -/
theorem integer_convert_ok_shape (sb : Bool) (v c : PyVal)
    (h : integer_convert_type sb v = .ok c) : ∃ n, c = .int n := by
  cases v with
  | int n => exact ⟨n, (Except.ok.inj h).symm⟩
  | bool b =>
    by_cases hsb : sb <;> simp [integer_convert_type, hsb] at h
    exact ⟨_, h.symm⟩
  | str s =>
    cases hp : pyIntOfString s <;> simp [integer_convert_type, hp] at h
    case some n =>
      split at h <;> simp at h
      exact ⟨n, h.symm⟩
  | float f =>
    cases f with
    | inf b => simp [integer_convert_type] at h
    | nan => simp [integer_convert_type] at h
    | finite m e =>
      obtain ⟨k, hk⟩ : ∃ k, pyTruncFloat (.finite m e) = some k := by
        unfold pyTruncFloat
        by_cases he : (0 : Int) ≤ e <;> simp [he]
      simp only [integer_convert_type, hk] at h
      split at h <;> simp at h
      exact ⟨k, h.symm⟩
  | none => simp [integer_convert_type] at h
  | list xs => simp [integer_convert_type] at h
  | dict xs => simp [integer_convert_type] at h
  | secureMut o => simp [integer_convert_type] at h
  | secureImm c2 o => simp [integer_convert_type] at h
  | notImplemented => simp [integer_convert_type] at h

/-- Successful float conversion always yields a `float`. -/
theorem float_convert_ok_shape (si sb : Bool) (v c : PyVal)
    (h : float_convert_type si sb v = .ok c) : ∃ f, c = .float f := by
  cases v with
  | float f => exact ⟨f, (Except.ok.inj h).symm⟩
  | str s =>
    simp only [float_convert_type] at h
    split at h
    · simp at h
    · cases hp : pyFloatOfString s <;> rw [hp] at h <;> simp at h
      exact ⟨_, h.symm⟩
  | bool b =>
    by_cases hsb : sb <;> simp [float_convert_type, hsb] at h
    exact ⟨_, h.symm⟩
  | int n =>
    cases hr : roundIntToDouble n <;> simp [float_convert_type, pyFloatOfInt, hr] at h <;>
      exact ⟨_, h.symm⟩
  | none => simp [float_convert_type] at h
  | list xs => simp [float_convert_type] at h
  | dict xs => simp [float_convert_type] at h
  | secureMut o => simp [float_convert_type] at h
  | secureImm c2 o => simp [float_convert_type] at h
  | notImplemented => simp [float_convert_type] at h

/-- Successful boolean conversion always yields a `bool`. -/
theorem boolean_convert_ok_shape (v c : PyVal)
    (h : boolean_convert_type v = .ok c) : ∃ b, c = .bool b := by
  cases v with
  | bool b => exact ⟨b, (Except.ok.inj h).symm⟩
  | int n =>
    by_cases h01 : (n == 0 || n == 1) = true <;> simp [boolean_convert_type, h01] at h
    exact ⟨_, h.symm⟩
  | str s =>
    simp only [boolean_convert_type] at h
    split at h
    · simp at h; exact ⟨_, h.symm⟩
    · split at h <;> simp at h
      exact ⟨_, h.symm⟩
  | none => simp [boolean_convert_type] at h
  | float f => simp [boolean_convert_type] at h
  | list xs => simp [boolean_convert_type] at h
  | dict xs => simp [boolean_convert_type] at h
  | secureMut o => simp [boolean_convert_type] at h
  | secureImm c2 o => simp [boolean_convert_type] at h
  | notImplemented => simp [boolean_convert_type] at h

/-- The wrap step fixes the values it lets through unwrapped: re-wrapping a
non-proxy output of a successful wrap returns it unchanged. -/
theorem wrap_stable (m : Bool) (pol : Policy) (x c : PyVal)
    (h : convert_to_secure_value m pol x = .ok c) (hns : isSecure c = false) :
    convert_to_secure_value m pol c = .ok c := by
  unfold convert_to_secure_value at h ⊢
  by_cases hcond : (m && !pol.reveal) = true
  · rw [if_pos hcond] at h ⊢
    cases x with
    | none =>
      simp [CreateSecureValue] at h
      subst h
      simp [CreateSecureValue]
    | notImplemented =>
      simp [CreateSecureValue] at h
      subst h
      simp [CreateSecureValue]
    | secureMut o =>
      cases hmu : pol.mutForm <;> simp [CreateSecureValue, hmu] at h
      subst h
      simp [isSecure] at hns
    | secureImm c2 o =>
      cases hmu : pol.mutForm <;> simp [CreateSecureValue, hmu] at h
      subst h
      simp [isSecure] at hns
    | bool b =>
      cases hmu : pol.mutForm <;> simp [CreateSecureValue, hmu] at h <;> subst h <;>
        simp [isSecure] at hns
    | int n =>
      cases hmu : pol.mutForm <;> simp [CreateSecureValue, hmu] at h <;> subst h <;>
        simp [isSecure] at hns
    | float f =>
      cases hmu : pol.mutForm <;> simp [CreateSecureValue, hmu] at h <;> subst h <;>
        simp [isSecure] at hns
    | str s =>
      cases hmu : pol.mutForm <;> simp [CreateSecureValue, hmu] at h <;> subst h <;>
        simp [isSecure] at hns
    | list xs =>
      cases hmu : pol.mutForm <;> simp [CreateSecureValue, hmu] at h <;> subst h <;>
        simp [isSecure] at hns
    | dict xs =>
      cases hmu : pol.mutForm <;> simp [CreateSecureValue, hmu] at h <;> subst h <;>
        simp [isSecure] at hns
  case neg =>
    rw [if_neg hcond] at h ⊢

/-- The precheck is silent on every plain non-string value: the sentinel
comparison is a cross-type `NotImplemented` that resolves to `False`. -/
theorem precheck_nonstr (c : PyVal)
    (h : (match c with
          | PyVal.str _ => false
          | PyVal.secureMut _ => false
          | PyVal.secureImm _ _ => false
          | _ => true) = true) :
    precheck_empty_value (some c) = .ok () := by
  cases c <;> simp at h <;> rfl

/-- Evaluation rule assembling a successful `set_value` run from its stages. -/
theorem set_value_ok_intro (pol : Policy) (jl : String → Option PyVal) (tk : String → Bool)
    (uc : Option (PyVal → Except PyErr Unit)) (d : Desc) (x y z : PyVal)
    (h1 : convert_to_secure_value (descMask d) pol x = .ok y)
    (h2 : precheck_empty_value (some y) = .ok ())
    (h3 : desc_convert_type jl d y = .ok z)
    (h4 : desc_validate_type d z = .ok ())
    (h5 : desc_value_validator tk d z = .ok ())
    (h6 : (match uc with
           | some f => f z
           | Option.none => pure ()) = .ok ()) :
    set_value pol jl tk uc d x = .ok z := by
  cases uc with
  | none =>
    simp only [set_value, h1, bind, Except.bind, h2, h3, h4, h5]
    rfl
  | some f =>
    have h6f : f z = .ok () := h6
    simp only [set_value, h1, bind, Except.bind, h2, h3, h4, h5, h6f]
    rfl

/-- A passing type check means the isinstance test held. -/
theorem validate_ok_isinstance (d : Desc) (c : PyVal) (h : desc_validate_type d c = .ok ()) :
    isinstance_of d c = true := by
  by_cases hi : isinstance_of d c = true
  · exact hi
  · simp [desc_validate_type, hi] at h

/-- A non-proxy instance of `list` is a plain list. -/
theorem list_isinstance_shape (cv : Bool) (c : PyVal)
    (hi : isinstance_of (Desc.list cv) c = true) (hns : isSecure c = false) :
    ∃ xs, c = .list xs := by
  cases c <;> simp [isinstance_of, isSecure] at hi hns ⊢

/-- A non-proxy instance of `dict` is a plain dictionary. -/
theorem dict_isinstance_shape (cv : Bool) (c : PyVal)
    (hi : isinstance_of (Desc.dict cv) c = true) (hns : isSecure c = false) :
    ∃ xs, c = .dict xs := by
  cases c <;> simp [isinstance_of, isSecure] at hi hns ⊢

/-- Only the mutable branch of the proxy constructor produces the mutable
form. -/
theorem create_mut_implies (v : PyVal) (mu : Bool) (o : PyVal)
    (h : CreateSecureValue v mu (fun _ => false) = .ok (.secureMut o)) : mu = true := by
  cases v <;> cases mu <;> simp [CreateSecureValue] at h ⊢

/-- A failing wrap aborts `set_value` with the same error. -/
theorem set_value_error_intro (pol : Policy) (jl : String → Option PyVal) (tk : String → Bool)
    (uc : Option (PyVal → Except PyErr Unit)) (d : Desc) (x : PyVal) (e : PyErr)
    (h : convert_to_secure_value (descMask d) pol x = .error e) :
    set_value pol jl tk uc d x = .error e := by
  simp only [set_value, h, bind, Except.bind]

/-- C8, amended.  (i) For every variant descriptor, policy, caller check and
raw value whose `set_value` run succeeds with a canonical output `c` that is
not a masking proxy — all non-secret variants always, and secret variants when
the reveal switch is on (or the value is the unwrapped `None`) — re-running
`set_value` on `c` succeeds and returns the same `c`.  (ii) When a
secret-flagged variant produced a mutable-form proxy (the default masking
policy), re-running `set_value` on it does not reproduce `c`: the wrap step
re-enters the proxy constructor, whose attribute-copy loop forwards its first
assignment through the re-wrapped `__setattr__` — a wrapper named `wrapped` —
and fails with `AttributeError: \x27SecureValue\x27 object has no attribute
\x27wrapped\x27`, so the unamended claim's idempotence fails exactly for the
proxy-valued outputs. -/
theorem C8_pipeline_idempotence :
    (∀ (pol : Policy) (jl : String → Option PyVal) (tk : String → Bool)
        (uc : Option (PyVal → Except PyErr Unit)) (d : Desc) (v c : PyVal),
      set_value pol jl tk uc d v = Except.ok c → isSecure c = false →
      set_value pol jl tk uc d c = Except.ok c) ∧
    (∀ (pol : Policy) (jl : String → Option PyVal) (tk : String → Bool)
        (uc : Option (PyVal → Except PyErr Unit)) (d : Desc) (v c o : PyVal),
      descMask d = true → pol.reveal = false →
      set_value pol jl tk uc d v = Except.ok c → c = PyVal.secureMut o →
      set_value pol jl tk uc d c =
        Except.error (PyErr.attributeError
          "\x27SecureValue\x27 object has no attribute \x27wrapped\x27")) := by
  constructor
  · intro pol jl tk uc d v c h hns
    unfold set_value at h
    rcases except_bind_ok_inv _ _ _ h with ⟨v1, hw, h1⟩
    rcases except_bind_ok_inv _ _ _ h1 with ⟨u1, hp, h2⟩
    rcases except_bind_ok_inv _ _ _ h2 with ⟨v2, hc, h3⟩
    rcases except_bind_ok_inv _ _ _ h3 with ⟨u2, hval, h4⟩
    rcases except_bind_ok_inv _ _ _ h4 with ⟨u3, hvv, h5⟩
    rcases except_bind_ok_inv _ _ _ h5 with ⟨u4, huc, h6⟩
    have h6e : Except.ok v2 = Except.ok c := h6
    have hzc : v2 = c := Except.ok.inj h6e
    rw [hzc] at hc hval hvv huc
    cases u1; cases u2; cases u3; cases u4
    cases d with
    | string =>
      have hvc : c = v1 := (Except.ok.inj hc).symm
      subst hvc
      exact set_value_ok_intro _ _ _ _ _ _ _ _ (by simp [convert_to_secure_value, descMask])
        hp rfl hval hvv huc
    | email =>
      have hvc : c = v1 := (Except.ok.inj hc).symm
      subst hvc
      exact set_value_ok_intro _ _ _ _ _ _ _ _ (by simp [convert_to_secure_value, descMask])
        hp rfl hval hvv huc
    | any =>
      have hvc : c = v1 := (Except.ok.inj hc).symm
      subst hvc
      exact set_value_ok_intro _ _ _ _ _ _ _ _ (by simp [convert_to_secure_value, descMask])
        hp rfl hval hvv huc
    | secret =>
      have hvc : c = v1 := (Except.ok.inj hc).symm
      subst hvc
      exact set_value_ok_intro _ _ _ _ _ _ _ _ (wrap_stable _ pol v c hw hns) hp rfl hval hvv huc
    | strongPassword p =>
      have hvc : c = v1 := (Except.ok.inj hc).symm
      subst hvc
      exact set_value_ok_intro _ _ _ _ _ _ _ _ (wrap_stable _ pol v c hw hns) hp rfl hval hvv huc
    | integer cv sb =>
      cases cv with
      | false =>
        have hvc : c = v1 := (Except.ok.inj hc).symm
        subst hvc
        exact set_value_ok_intro _ _ _ _ _ _ _ _ (by simp [convert_to_secure_value, descMask])
          hp rfl hval hvv huc
      | true =>
        have hc2 : integer_convert_type sb v1 = .ok c := hc
        obtain ⟨n, rfl⟩ := integer_convert_ok_shape sb v1 c hc2
        exact set_value_ok_intro pol jl tk uc (Desc.integer true sb) (PyVal.int n)
          (PyVal.int n) (PyVal.int n) (by simp [convert_to_secure_value, descMask])
          (precheck_nonstr _ rfl) rfl hval hvv huc
    | positiveInteger cv =>
      cases cv with
      | false =>
        have hvc : c = v1 := (Except.ok.inj hc).symm
        subst hvc
        exact set_value_ok_intro _ _ _ _ _ _ _ _ (by simp [convert_to_secure_value, descMask])
          hp rfl hval hvv huc
      | true =>
        have hc2 : integer_convert_type false v1 = .ok c := hc
        obtain ⟨n, rfl⟩ := integer_convert_ok_shape false v1 c hc2
        exact set_value_ok_intro pol jl tk uc (Desc.positiveInteger true) (PyVal.int n)
          (PyVal.int n) (PyVal.int n) (by simp [convert_to_secure_value, descMask])
          (precheck_nonstr _ rfl) rfl hval hvv huc
    | negativeInteger cv =>
      cases cv with
      | false =>
        have hvc : c = v1 := (Except.ok.inj hc).symm
        subst hvc
        exact set_value_ok_intro _ _ _ _ _ _ _ _ (by simp [convert_to_secure_value, descMask])
          hp rfl hval hvv huc
      | true =>
        have hc2 : integer_convert_type false v1 = .ok c := hc
        obtain ⟨n, rfl⟩ := integer_convert_ok_shape false v1 c hc2
        exact set_value_ok_intro pol jl tk uc (Desc.negativeInteger true) (PyVal.int n)
          (PyVal.int n) (PyVal.int n) (by simp [convert_to_secure_value, descMask])
          (precheck_nonstr _ rfl) rfl hval hvv huc
    | float cv si sb =>
      cases cv with
      | false =>
        have hvc : c = v1 := (Except.ok.inj hc).symm
        subst hvc
        exact set_value_ok_intro _ _ _ _ _ _ _ _ (by simp [convert_to_secure_value, descMask])
          hp rfl hval hvv huc
      | true =>
        have hc2 : float_convert_type si sb v1 = .ok c := hc
        obtain ⟨f, rfl⟩ := float_convert_ok_shape si sb v1 c hc2
        exact set_value_ok_intro pol jl tk uc (Desc.float true si sb) (PyVal.float f)
          (PyVal.float f) (PyVal.float f) (by simp [convert_to_secure_value, descMask])
          (precheck_nonstr _ rfl) rfl hval hvv huc
    | boolean cv =>
      cases cv with
      | false =>
        have hvc : c = v1 := (Except.ok.inj hc).symm
        subst hvc
        exact set_value_ok_intro _ _ _ _ _ _ _ _ (by simp [convert_to_secure_value, descMask])
          hp rfl hval hvv huc
      | true =>
        have hc2 : boolean_convert_type v1 = .ok c := hc
        obtain ⟨b, rfl⟩ := boolean_convert_ok_shape v1 c hc2
        exact set_value_ok_intro pol jl tk uc (Desc.boolean true) (PyVal.bool b)
          (PyVal.bool b) (PyVal.bool b) (by simp [convert_to_secure_value, descMask])
          (precheck_nonstr _ rfl) rfl hval hvv huc
    | list cv =>
      obtain ⟨xs, rfl⟩ :=
        list_isinstance_shape cv c (validate_ok_isinstance _ _ hval) hns
      cases cv with
      | false =>
        exact set_value_ok_intro pol jl tk uc (Desc.list false) (PyVal.list xs)
          (PyVal.list xs) (PyVal.list xs) (by simp [convert_to_secure_value, descMask])
          (precheck_nonstr _ rfl) rfl hval hvv huc
      | true =>
        exact set_value_ok_intro pol jl tk uc (Desc.list true) (PyVal.list xs)
          (PyVal.list xs) (PyVal.list xs) (by simp [convert_to_secure_value, descMask])
          (precheck_nonstr _ rfl) rfl hval hvv huc
    | dict cv =>
      obtain ⟨xs, rfl⟩ :=
        dict_isinstance_shape cv c (validate_ok_isinstance _ _ hval) hns
      cases cv with
      | false =>
        exact set_value_ok_intro pol jl tk uc (Desc.dict false) (PyVal.dict xs)
          (PyVal.dict xs) (PyVal.dict xs) (by simp [convert_to_secure_value, descMask])
          (precheck_nonstr _ rfl) rfl hval hvv huc
      | true =>
        exact set_value_ok_intro pol jl tk uc (Desc.dict true) (PyVal.dict xs)
          (PyVal.dict xs) (PyVal.dict xs) (by simp [convert_to_secure_value, descMask])
          (precheck_nonstr _ rfl) rfl hval hvv huc
  · intro pol jl tk uc d v c o hm hr h hc0
    subst hc0
    unfold set_value at h
    rcases except_bind_ok_inv _ _ _ h with ⟨v1, hw, h1⟩
    rcases except_bind_ok_inv _ _ _ h1 with ⟨u1, hp, h2⟩
    rcases except_bind_ok_inv _ _ _ h2 with ⟨v2, hc, h3⟩
    rcases except_bind_ok_inv _ _ _ h3 with ⟨u2, hval, h4⟩
    rcases except_bind_ok_inv _ _ _ h4 with ⟨u3, hvv, h5⟩
    rcases except_bind_ok_inv _ _ _ h5 with ⟨u4, huc, h6⟩
    have h6e : Except.ok v2 = Except.ok (PyVal.secureMut o) := h6
    have hzc : v2 = PyVal.secureMut o := Except.ok.inj h6e
    subst hzc
    cases d with
    | secret =>
      have hvc : v1 = PyVal.secureMut o := Except.ok.inj hc
      subst hvc
      have hw2 : CreateSecureValue v pol.mutForm (fun _ => false) =
          .ok (PyVal.secureMut o) := by
        simpa [convert_to_secure_value, descMask, hr] using hw
      have hmu : pol.mutForm = true := create_mut_implies v pol.mutForm o hw2
      exact set_value_error_intro _ _ _ _ _ _ _
        (by simp [convert_to_secure_value, descMask, hr, hmu, CreateSecureValue])
    | strongPassword p =>
      have hvc : v1 = PyVal.secureMut o := Except.ok.inj hc
      subst hvc
      have hw2 : CreateSecureValue v pol.mutForm (fun _ => false) =
          .ok (PyVal.secureMut o) := by
        simpa [convert_to_secure_value, descMask, hr] using hw
      have hmu : pol.mutForm = true := create_mut_implies v pol.mutForm o hw2
      exact set_value_error_intro _ _ _ _ _ _ _
        (by simp [convert_to_secure_value, descMask, hr, hmu, CreateSecureValue])
    | string => simp [descMask] at hm
    | email => simp [descMask] at hm
    | any => simp [descMask] at hm
    | integer cv sb => simp [descMask] at hm
    | positiveInteger cv => simp [descMask] at hm
    | negativeInteger cv => simp [descMask] at hm
    | float cv si sb => simp [descMask] at hm
    | boolean cv => simp [descMask] at hm
    | list cv => simp [descMask] at hm
    | dict cv => simp [descMask] at hm

/-- Witness for C8: the Integer descriptor accepts `"7"` producing the
canonical `7`, and re-running on `7` reproduces it. -/
theorem C8_pipeline_idempotence_witness :
    set_value ⟨true, true⟩ (fun _ => Option.none) (fun _ => false) Option.none
        (Desc.integer true false) (PyVal.int 7) =
      Except.ok (PyVal.int 7) :=
  C8_pipeline_idempotence.1 ⟨true, true⟩ (fun _ => Option.none) (fun _ => false) Option.none
    (Desc.integer true false) (PyVal.str "7") (PyVal.int 7) rfl rfl

/-- C8 counterexample.  Under the masking policy (reveal off, mutable on) the
secret descriptor turns the raw value `2` into the canonical proxy output;
invoking `set_value` again on that canonical output does not return it — the
re-wrap's attribute-copy loop forwards its first assignment (key `__dict__`)
through the proxy's re-wrapped `__setattr__`, a wrapper function named
`wrapped`, and raises `AttributeError: \x27SecureValue\x27 object has no
attribute \x27wrapped\x27`.  This refutes the claim's inclusion of
proxy-valued canonical outputs. -/
theorem C8_secret_rerun_not_idempotent :
    set_value ⟨false, true⟩ (fun _ => Option.none) (fun _ => false) Option.none Desc.secret
        (PyVal.int 2) =
      Except.ok (PyVal.secureMut (PyVal.int 2)) ∧
    set_value ⟨false, true⟩ (fun _ => Option.none) (fun _ => false) Option.none Desc.secret
        (PyVal.secureMut (PyVal.int 2)) =
      Except.error (PyErr.attributeError
        "\x27SecureValue\x27 object has no attribute \x27wrapped\x27") :=
  ⟨rfl, rfl⟩
